import Mathlib

/-!
Verification of the DTMI retrieval-and-relevance pipeline.

This file gives a shallow embedding, in Lean 4, of the core pipeline of the
repository: the filter builder (`app/service/filter_service/filter_builder.py`),
the chunk-window expansion (`app/service/filter_service/context_expansion.py`),
the boundary-overlap merge (`app/utils.py`), the CSV loading chain
(`app/service/filter_service/csv_handler.py`, `content_builder.py`), the two
relevance evaluators (`relevance_evaluator.py`, per-item and batched variants),
the final deduplicator (`deduplicator.py`) and the `get_rag` orchestration
(`app/service/filter_service/__init__.py`).

Modelling conventions:
* Python strings are Lean `String`s; every string primitive the code uses
  (`str.split()`, `str.strip()`, `str.lower()`, slicing, `startswith`) is
  re-implemented below by structural recursion over `List Char` so that all
  definitions evaluate inside the kernel.  The implementations follow CPython
  semantics on ASCII data (the repository's metadata is ASCII).
* External collaborators (the vector store, the judgment LLM, `tiktoken`,
  `json.loads`, the filesystem, Python's `hash`) are parameters of the
  embedding: the pipeline only consumes their outputs.
* Python exceptions are modelled with `Except`: a function that may raise
  returns `Except ε α`, and `.error` marks a raised exception propagating to
  the caller.
* Scores are only ever stored, copied and re-printed by the embedded code
  (no arithmetic is performed on them), so they are modelled by an opaque
  scalar type `Score := Nat`; Python's `f"{score:.4f}"` rendering is modelled
  by `fmtScore` below.  No claim depends on the rendered digits.
* Python's `asyncio.gather` over independent tasks is modelled by a sequential
  left-to-right fold: an exception raised by any task makes the gather (and
  hence the enclosing coroutine) raise, which is the only property the claims
  depend on.
-/

namespace DTMI

/-! ## Python string primitives (ASCII semantics, structurally recursive) -/

/-- Whitespace test matching Python's `str.split()` / `str.strip()` on ASCII. -/
def isWs (c : Char) : Bool :=
  c = ' ' || c = '\t' || c = '\n' || c = '\r' || c = '\x0b' || c = '\x0c'

def splitWsAux : List Char → List Char → List (List Char)
  | [], acc => if acc.isEmpty then [] else [acc.reverse]
  | c :: rest, acc =>
    if isWs c then
      if acc.isEmpty then splitWsAux rest [] else acc.reverse :: splitWsAux rest []
    else splitWsAux rest (c :: acc)

/-- Python `s.split()`: split on whitespace runs, dropping empty fields. -/
def pySplitWs (s : String) : List String :=
  (splitWsAux s.toList []).map String.mk

/-- Python `str.lower` on ASCII. -/
def charLower (c : Char) : Char :=
  if 'A' ≤ c && c ≤ 'Z' then Char.ofNat (c.toNat + 32) else c

/-- Python `str.upper` on ASCII. -/
def charUpper (c : Char) : Char :=
  if 'a' ≤ c && c ≤ 'z' then Char.ofNat (c.toNat - 32) else c

def pyLower (s : String) : String := String.mk (s.toList.map charLower)

def pyUpper (s : String) : String := String.mk (s.toList.map charUpper)

/-- Python `s.strip()`. -/
def pyTrim (s : String) : String :=
  String.mk ((s.toList.dropWhile isWs).reverse.dropWhile isWs).reverse

/-- Python `s.startswith(p)`. -/
def pyStartsWith (s p : String) : Bool :=
  p.toList.isPrefixOf s.toList

/-- Python `s[:n]` (by code points, as in CPython). -/
def pyTake (s : String) (n : Nat) : String := String.mk (s.toList.take n)

/-- Python truthiness of an optional string (`None` and `""` are falsy). -/
def truthy : Option String → Bool
  | none => false
  | some s => !s.isEmpty

/-- Value of an optional string under Python `or` defaulting (`x or ""`). -/
def orEmpty : Option String → String
  | none => ""
  | some s => s

/-- Lexicographic code-point order on strings, as Python `<=` on `str`. -/
def lexLe : List Char → List Char → Bool
  | [], _ => true
  | _ :: _, [] => false
  | a :: as, b :: bs =>
    if a.toNat < b.toNat then true
    else if a.toNat = b.toNat then lexLe as bs
    else false

def insertSorted (x : String) : List String → List String
  | [] => [x]
  | y :: ys => if lexLe x.toList y.toList then x :: y :: ys else y :: insertSorted x ys

/-- Python `sorted` on a list of strings (insertion sort; stable, total). -/
def sortStrings (l : List String) : List String :=
  l.foldr insertSorted []

/-- First-occurrence deduplication (Python `set` membership collapsing,
followed by `sorted` wherever the code sorts the set). -/
def dedupFirst : List String → List String → List String
  | [], _ => []
  | x :: xs, seen => if x ∈ seen then dedupFirst xs seen else x :: dedupFirst xs (x :: seen)

/-! ## Data model -/

/-- Scores are opaque in the embedded pipeline: the Python code only stores
`float` scores and re-prints them, never computing with them. -/
abbrev Score := Nat

/-- Rendering of a score in the dedup prefix; stands for Python's
`f"{score:.4f}"` (external numeric formatting, no claim depends on it). -/
def fmtScore (s : Score) : String := toString s ++ ".0000"

/-- Python `str(x)` of an optional id as it appears in f-strings
(`None` prints as `"None"`). -/
def pyShowOptId : Option String → String
  | none => "None"
  | some s => s

/-- Result of `ast.literal_eval` on the `pair` metadata field, collapsed to
the three shapes `batch_deduplicate` distinguishes: a parse error (raises
`ValueError`/`SyntaxError`, caught and logged), a value that is not a
2-element list/tuple, or a 2-element pair. -/
inductive PairVal where
  | parseError : PairVal
  | notPair : PairVal
  | pairOf (img name : String) : PairVal
  deriving DecidableEq, Repr

/-- One entry of the `pairs` metadata list: either not a `len ≥ 2`
list/tuple, or an entry whose first two elements are the image path and the
person name. -/
inductive PairItem where
  | badItem : PairItem
  | item (img name : String) : PairItem
  deriving DecidableEq, Repr

/-- Result of `ast.literal_eval` on the `pairs` metadata field. -/
inductive PairsVal where
  | parseError : PairsVal
  | notList : PairsVal
  | items (l : List PairItem) : PairsVal
  deriving DecidableEq, Repr

/-- The metadata dictionary of a retrieved item, with the keys the pipeline
reads.  `none` models an absent key.  Text items always carry
`section_id` / `chunk_index` / `total_chunks_in_section` (data model of the
spec, §3). -/
structure Meta where
  type : Option String := none
  id : Option String := none
  score : Score := 0
  sectionTitle : Option String := none
  caption : String := ""
  csvPath : Option String := none
  imagePath : Option String := none
  sectionId : String := ""
  chunkIndex : Nat := 0
  totalChunks : Nat := 0
  explanation : Option String := none
  pair : Option PairVal := none
  pairs : Option PairsVal := none
  deriving DecidableEq, Repr

/-- A LangChain `Document`: page content plus metadata. -/
structure Document where
  pageContent : String := ""
  metadata : Meta := {}
  deriving DecidableEq, Repr

/-! ## FilterBuilder (`app/service/filter_service/filter_builder.py`) -/

/-- The `modalities` argument of `build_filter`:
`Union[str, List[str], None]`. -/
inductive Modalities where
  | str (s : String) : Modalities
  | list (l : List String) : Modalities
  | noneV : Modalities
  deriving DecidableEq, Repr

/-- The shape of the `type` clause `build_filter` produces: either
`{"type": {"$in": [...]}}` or the fallback `{"type": {"$exists": True}}`. -/
inductive TypeFilter where
  | inList (types : List String) : TypeFilter
  | existsTrue : TypeFilter
  deriving DecidableEq, Repr

/-- The structured predicate `build_filter` returns:
`{"$and": [type_filter] (+ [{"$or": [{"year": k}, {"year": "GENERAL"}]}])}`. -/
structure BuiltFilter where
  typeFilter : TypeFilter
  yearFilter : Option (String × String)
  deriving DecidableEq, Repr

/-- `Filter` enum values (`app/model/enums.py`). -/
def FilterTEXT : String := "text"
def FilterIMAGE : String := "image"
def FilterROWTAB : String := "table_row"
def FilterCAPTAB : String := "table_caption"
def FilterTENDIK : String := "tendik"

/-- `Year` enum values (`app/model/enums.py`). -/
def YearSARJANA : String := "SARJANA"
def YearMAGISTER : String := "MAGISTER"
def YearDOKTOR : String := "DOKTOR"
def YearGENERAL : String := "GENERAL"

/-- `build_filter` (`filter_builder.py`, lines 7–63).  Mirrors the Python
line by line:
`query_types = (modalities or "all").lower() if isinstance(modalities, str) else "all"`,
the four recognized literals, the unconditional `TENDIK` append when the
condition list is nonempty, the `$exists` fallback otherwise, and a year
clause only when `year.upper()` is one of the three program years. -/
def build_filter (modalities : Modalities) (year : Option String) :
    BuiltFilter × String :=
  let query_types : String :=
    match modalities with
    | .str s => if s.isEmpty then "all" else pyLower s
    | _ => "all"
  let year_key : Option String := if truthy year then some (pyUpper (orEmpty year)) else none
  let type_conditions : List String :=
    if query_types = "text" then [FilterTEXT]
    else if query_types = "image" then [FilterIMAGE]
    else if query_types = "table" then [FilterROWTAB, FilterCAPTAB]
    else if query_types = "all" then [FilterTEXT, FilterIMAGE, FilterROWTAB, FilterCAPTAB]
    else []
  let type_filter : TypeFilter :=
    if !type_conditions.isEmpty then .inList (type_conditions ++ [FilterTENDIK])
    else .existsTrue
  let year_filter : Option (String × String) :=
    match year_key with
    | some k => if k = YearSARJANA ∨ k = YearMAGISTER ∨ k = YearDOKTOR
                then some (k, YearGENERAL) else none
    | none => none
  let desc_parts : List String :=
    (if query_types ≠ "all" then ["Types: " ++ query_types] else [])
    ++ (match year_key with | some k => ["Year: " ++ k] | none => [])
    ++ ["+ TENDIK always", "+ GENERAL always"]
  (⟨type_filter, year_filter⟩, String.intercalate " | " desc_parts)

/-- Python `repr` of a list of strings: `['a', 'b']`. -/
def pyReprStrList (l : List String) : String :=
  "[" ++ String.intercalate ", " (l.map (fun s => "'" ++ s ++ "'")) ++ "]"

/-- Python `str()` of the filter dictionary as it is interpolated into
f-strings by `get_rag` (`f"... with filter {where}"`). -/
def pyReprFilter (f : BuiltFilter) : String :=
  let typePart :=
    match f.typeFilter with
    | .inList ts => "\x7b'type': \x7b'$in': " ++ pyReprStrList ts ++ "\x7d\x7d"
    | .existsTrue => "\x7b'type': \x7b'$exists': True\x7d\x7d"
  let parts :=
    match f.yearFilter with
    | some (k, g) =>
        [typePart, "\x7b'$or': [\x7b'year': '" ++ k ++ "'\x7d, \x7b'year': '" ++ g ++ "'\x7d]\x7d"]
    | none => [typePart]
  "\x7b'$and': [" ++ String.intercalate ", " parts ++ "]\x7d"

/-- Semantics of the type clause against a stored document type, per the
Mongo/Chroma operators the predicate uses (`$in`, `$exists`); the store is an
external collaborator, its operator semantics are standard. -/
def TypeFilter.admitsType : TypeFilter → String → Bool
  | .inList ts, t => t ∈ ts
  | .existsTrue, _ => true

/-! ## Boundary-overlap merge (`app/utils.py`) -/

/-- The subword tokenizer (`tiktoken.get_encoding("cl100k_base")`), an
external collaborator: the pipeline only calls `encode` and `decode`. -/
structure Tokenizer (τ : Type) where
  encode : String → List τ
  decode : List τ → String

/-- The countdown loop `for overlap_len in range(max_check, 1, -1)` of
`_merge_with_overlap_detection`: starting at `n` and counting down to 2,
return the first (largest) length at which the last `n` tokens of `t1`
equal the first `n` tokens of `t2`. -/
def findExactOverlap {τ : Type} [DecidableEq τ] (t1 t2 : List τ) : Nat → Option Nat
  | 0 => none
  | 1 => none
  | n + 2 =>
    if t1.drop (t1.length - (n + 2)) = t2.take (n + 2) then some (n + 2)
    else findExactOverlap t1 t2 (n + 1)

/-- The boundary-word test of the partial-reconstruction loop: decode the
last `i` tokens of `t1` glued to the first `j` tokens of `t2`, strip it, and
ask whether it is a case-insensitive prefix of `text2` of length ≥ 4. -/
def boundaryCond {τ : Type} (tok : Tokenizer τ) (t1 t2 : List τ) (text2 : String)
    (i j : Nat) : Bool :=
  let boundaryText := pyTrim (tok.decode (t1.drop (t1.length - i) ++ t2.take j))
  pyStartsWith (pyLower text2) (pyLower boundaryText) && decide (4 ≤ boundaryText.length)

/-- Ascending scan `for j in range(j₀, j₀ + fuel)`: first `j` satisfying
`cond`. -/
def scanFirst (cond : Nat → Bool) (j : Nat) : Nat → Option Nat
  | 0 => none
  | fuel + 1 => if cond j then some j else scanFirst cond (j + 1) fuel

/-- The nested loops `for i in range(1, imax): for j in range(1, jmax)` of
the boundary-word reconstruction, returning the first `(i, j)` hit. -/
def scanPairs (cond : Nat → Nat → Bool) (jmax : Nat) (i : Nat) : Nat → Option (Nat × Nat)
  | 0 => none
  | fuel + 1 =>
    match scanFirst (cond i) 1 (jmax - 1) with
    | some j => some (i, j)
    | none => scanPairs cond jmax (i + 1) fuel

/-- `_merge_with_overlap_detection` (`app/utils.py`, lines 83–149).
Token-based overlap detection between two adjacent chunk texts: exact
suffix/prefix token overlap search from `min(len₁, len₂, 2·stride)` down to
2, then boundary-word reconstruction, then plain space concatenation.  The
`tiktoken` import always succeeds in the model (the tokenizer is a supplied
collaborator). -/
def merge_with_overlap_detection {τ : Type} [DecidableEq τ] (tok : Tokenizer τ)
    (text1 text2 : String) (chunk_stride : Nat) : String :=
  if text1.isEmpty || text2.isEmpty then
    -- `text1 + " " + text2 if text1 and text2 else text1 or text2`; under
    -- the guard at least one side is empty, so this is `text1 or text2`
    if !text1.isEmpty then text1 else text2
  else
    let t1s := pyTrim text1
    let t2s := pyTrim text2
    let tokens1 := tok.encode t1s
    let tokens2 := tok.encode t2s
    let max_check := min (min tokens1.length tokens2.length) (chunk_stride * 2)
    match findExactOverlap tokens1 tokens2 max_check with
    | some overlap_len => tok.decode (tokens1 ++ tokens2.drop overlap_len)
    | none =>
      if 2 ≤ tokens1.length && 2 ≤ tokens2.length then
        match scanPairs (fun i j => boundaryCond tok tokens1 tokens2 t2s i j)
            (min 10 tokens2.length) 1 (min 5 (min tokens1.length tokens2.length) - 1) with
        | some (i, _) => tok.decode (tokens1.take (tokens1.length - i) ++ tokens2)
        | none => t1s ++ " " ++ t2s
      else t1s ++ " " ++ t2s

/-- `' '.join(s.split())`: collapse whitespace to single spaces. -/
def normalizeWs (s : String) : String :=
  String.intercalate " " (pySplitWs s)

/-- Collapse runs of characters satisfying `p` into a single `rep`
(`re.sub(r'X+', 'X', s)`). -/
def collapseRuns (p : Char → Bool) (rep : Char) : List Char → Bool → List Char
  | [], _ => []
  | c :: rest, inRun =>
    if p c then
      if inRun then collapseRuns p rep rest true
      else rep :: collapseRuns p rep rest true
    else c :: collapseRuns p rep rest false

/-- `re.sub(r'\s+\.', '.', s)`: a whitespace run directly followed by a
period is replaced by the period. -/
def dropWsBeforeDot : List Char → List Char → List Char
  | [], pend => pend.reverse
  | c :: rest, pend =>
    if isWs c then dropWsBeforeDot rest (c :: pend)
    else if c = '.' && !pend.isEmpty then '.' :: dropWsBeforeDot rest []
    else pend.reverse ++ c :: dropWsBeforeDot rest []

/-- The post-merge cleanup of `_deduplicate_and_join_text`: whitespace runs
to one space, period runs to one period, drop space before period, strip. -/
def cleanupJoined (s : String) : String :=
  let a := collapseRuns isWs ' ' s.toList false
  let b := collapseRuns (fun c => c = '.') '.' a false
  pyTrim (String.mk (dropWsBeforeDot b []))

/-- The chunk-processing loop of `_deduplicate_and_join_text`: running
left-fold of the overlap merge.  `i = 0` appends; later chunks are merged
into the previous processed chunk when the merge changes it, else appended.
An empty processed list at `i ≥ 1` is Python's `processed_chunks[-1]`
`IndexError`. -/
def processChunksAux {τ : Type} [DecidableEq τ] (tok : Tokenizer τ) :
    List Document → Nat → List String → Except String (List String)
  | [], _, processed => .ok processed
  | doc :: rest, i, processed =>
    let current_text := normalizeWs (pyTrim doc.pageContent)
    if current_text.isEmpty then processChunksAux tok rest (i + 1) processed
    else if i = 0 then processChunksAux tok rest (i + 1) (processed ++ [current_text])
    else
      match processed.getLast? with
      | none => .error "IndexError: list index out of range"
      | some prev_text =>
        let merged := merge_with_overlap_detection tok prev_text current_text 10
        if merged ≠ prev_text then
          processChunksAux tok rest (i + 1) (processed.dropLast ++ [merged])
        else
          processChunksAux tok rest (i + 1) (processed ++ [current_text])

/-- `_deduplicate_and_join_text` (`app/utils.py`, lines 43–80), with the
default separator `" "`. -/
def deduplicate_and_join_text {τ : Type} [DecidableEq τ] (tok : Tokenizer τ)
    (docs : List Document) (sep : String) : Except String String :=
  match docs with
  | [] => .ok ""
  | [doc] => .ok (normalizeWs (pyTrim doc.pageContent))
  | _ => do
    let processed ← processChunksAux tok docs 0 []
    .ok (cleanupJoined (String.intercalate sep processed))

/-! ## External collaborators and shared dependencies -/

/-- Outcome of one judgment-model call (`llm.ainvoke`): a textual reply, or
an exception raised by the client. -/
inductive LLMReply where
  | text (s : String) : LLMReply
  | failure : LLMReply
  deriving DecidableEq, Repr

/-- Fields `json.loads` + `dict.get` deliver for the per-item relevance
reply (`{"rationale": ..., "is_relevant": ...}` shape; the code reads
`is_relevant` and `explanation`).  `none` overall = parsing raised. -/
structure ItemParsed where
  is_relevant : Option Bool := none
  explanation : Option String := none
  deriving DecidableEq, Repr

/-- Fields for the batched relevance reply (`{"rationale": ..., "ids":
[...]}`), after `json.loads` and pydantic validation. -/
structure BatchParsed where
  rationale : Option String := none
  ids : Option (List Int) := none
  deriving DecidableEq, Repr

/-- `FilterServiceDeps` (`dependencies.py`) together with the external
collaborators each request consumes: the tokenizer, the vector store's
chunk-fetch call, the filesystem/CSV converter, Python's `hash`, and the
judgment model's replies (per-item and batched) including their timing. -/
structure Deps where
  static_dir : String := ""
  window : Nat := 5
  csv_cache : List (String × String) := []
  relevance_cache : List (String × Bool) := []
  tok : Tokenizer Nat
  fetch : List String → List Document := fun _ => []
  fs : String → Option String := fun _ => none
  hashFn : String → Int := fun _ => 0
  llmItem : Document → LLMReply := fun _ => .failure
  timedOut : Document → Bool := fun _ => false
  llmBatch : LLMReply := .failure
  jsonItem : String → Option ItemParsed := fun _ => none
  jsonBatch : String → Option BatchParsed := fun _ => none

/-! ## ChunkExpander (`app/service/filter_service/context_expansion.py`) -/

/-- The chunk-window computation of `expand_one` (`context_expansion.py`,
lines 21–29): `half = w // 2`, `start = max(0, idx - half)`,
`end = min(total, idx + half + 1)`, then if the span fell short of `w`
against a section boundary, shift to the available side. -/
def expandWindow (idx total w : Nat) : Nat × Nat :=
  let half := w / 2
  let start := max 0 (idx - half)
  let e := min total (idx + half + 1)
  if e - start < w then
    if start = 0 then (start, min total w)
    else if e = total then (max 0 (total - w), e)
    else (start, e)
  else (start, e)

/-- `f"{i:03d}"`. -/
def pad3 (i : Nat) : String :=
  if i < 10 then "00" ++ toString i
  else if i < 100 then "0" ++ toString i
  else toString i

/-- Split a list into batches of `n` (`[chunk_ids[i:i+12] for i in
range(0, len, 12)]`), with fuel for structural recursion. -/
def chunkBatchesAux {α : Type} (n : Nat) : Nat → List α → List (List α)
  | 0, _ => []
  | _, [] => []
  | fuel + 1, l => l.take n :: chunkBatchesAux n fuel (l.drop n)

def chunkBatches {α : Type} (n : Nat) (l : List α) : List (List α) :=
  chunkBatchesAux n l.length l

/-- `batch_fetch_chunks` (`context_expansion.py`, lines 54–71): fetch the
requested chunk ids in batches of 12 from the store, key the results by id
(later entries overwrite, as in the Python dict comprehension), and return
them in requested order with the original score written into the metadata. -/
def batch_fetch_chunks (deps : Deps) (chunk_ids : List String) (score : Score) :
    List Document :=
  if chunk_ids.isEmpty then []
  else
    let batches := chunkBatches 12 chunk_ids
    let all_docs := (batches.map deps.fetch).flatten
    chunk_ids.filterMap fun cid =>
      match (all_docs.filter fun d => d.metadata.id = some cid).getLast? with
      | some d => some { d with metadata := { d.metadata with score := score } }
      | none => none

/-- `expand_one` (`context_expansion.py`, lines 15–35). -/
def expand_one (deps : Deps) (doc : Document) : Except String (List Document) :=
  if doc.metadata.type ≠ some FilterTEXT then .ok [doc]
  else
    let idx := doc.metadata.chunkIndex
    let total := doc.metadata.totalChunks
    let section_id := doc.metadata.sectionId
    let w := deps.window
    let (start, e) := expandWindow idx total w
    let target_ids := (List.range (e - start)).map fun k =>
      section_id ++ "_chunk_" ++ pad3 (start + k)
    let expanded_docs := batch_fetch_chunks deps target_ids doc.metadata.score
    if 1 < expanded_docs.length then
      (deduplicate_and_join_text deps.tok expanded_docs " ").map fun merged =>
        [{ pageContent := merged, metadata := doc.metadata }]
    else .ok [doc]

/-- Id-based deduplication at the end of `batch_expand_text`: keep the first
document per id, drop documents lacking a (truthy) id. -/
def dedupById : List Document → List String → List Document
  | [], _ => []
  | d :: rest, seen =>
    if truthy d.metadata.id then
      let i := orEmpty d.metadata.id
      if i ∈ seen then dedupById rest seen
      else d :: dedupById rest (i :: seen)
    else dedupById rest seen

/-- `batch_expand_text` (`context_expansion.py`, lines 11–51): passthrough
for `window ≤ 1`, else expand every text doc (gathered; a raise in any
`expand_one` propagates) and deduplicate by id. -/
def batch_expand_text (deps : Deps) (docs : List Document) :
    Except String (List Document) :=
  if deps.window ≤ 1 then .ok docs
  else do
    let results ← docs.mapM (expand_one deps)
    .ok (dedupById results.flatten [])

/-! ## Python path helpers (`os.path`) -/

/-- Split a character list on a separator, keeping empty fields
(`path.split('/')`). -/
def splitOnChar (sep : Char) : List Char → List Char → List (List Char)
  | [], acc => [acc.reverse]
  | c :: rest, acc =>
    if c = sep then acc.reverse :: splitOnChar sep rest []
    else splitOnChar sep rest (c :: acc)

/-- `os.path.normpath` for POSIX paths (CPython `posixpath.normpath`). -/
def pyNormpath (p : String) : String :=
  if p.isEmpty then "."
  else
    let cs := p.toList
    let initial_slashes : Nat :=
      if pyStartsWith p "/" then
        if pyStartsWith p "//" && !pyStartsWith p "///" then 2 else 1
      else 0
    let comps := (splitOnChar '/' cs []).map String.mk
    let new_comps := comps.foldl (fun (acc : List String) comp =>
      if comp = "" || comp = "." then acc
      else if comp ≠ ".." || (initial_slashes = 0 && acc.isEmpty)
              || (!acc.isEmpty && acc.getLast? = some "..") then acc ++ [comp]
      else if !acc.isEmpty then acc.dropLast
      else acc) []
    let joined := String.intercalate "/" new_comps
    let out := (String.mk (List.replicate initial_slashes '/')) ++ joined
    if out.isEmpty then "." else out

/-- `os.path.isabs` (POSIX). -/
def pyIsAbs (p : String) : Bool := pyStartsWith p "/"

/-- `os.path.join(a, b)` (POSIX, two arguments). -/
def pyJoin (a b : String) : String :=
  if pyIsAbs b then b
  else if a.isEmpty || a.toList.getLast? = some '/' then a ++ b
  else a ++ "/" ++ b

/-- Generic Python-dict lookup on an insertion-ordered association list. -/
def dictGet {β : Type} (d : List (String × β)) (k : String) : Option β :=
  (d.find? fun e => e.1 = k).map (·.2)

def dictGetD {β : Type} (d : List (String × β)) (k : String) (v : β) : β :=
  (dictGet d k).getD v

/-- Python-dict assignment `d[k] = v`: overwrite in place if the key exists
(keeping its insertion position), else append. -/
def dictInsert {β : Type} : List (String × β) → String → β → List (String × β)
  | [], k, v => [(k, v)]
  | (k', v') :: rest, k, v =>
    if k' = k then (k, v) :: rest else (k', v') :: dictInsert rest k v

/-! ## CSV loading (`app/utils.py` `csv_to_markdown`,
`app/service/filter_service/csv_handler.py`) -/

/-- `csv_to_markdown` (`app/utils.py`, lines 22–40): raises `ValueError` on
a missing file, else converts the CSV to JSON-lines text.  The filesystem
plus the `pandas` row rendering are the external converter: `deps.fs` maps a
path to the rendered JSONL text of an existing file, `none` for a missing
one.  (A file that exists but fails to parse also raises in the source; no
claim depends on that branch, and `fs` folds it into the same absence.) -/
def csv_to_markdown (fs : String → Option String) (csv_path : String) :
    Except String String :=
  match fs csv_path with
  | none => .error ("CSV file does not exist: " ++ csv_path)
  | some md => .ok md

/-- `resolve_csv_path` (`csv_handler.py`, lines 11–14). -/
def resolve_csv_path (deps : Deps) (p : String) : String :=
  if p.isEmpty then p
  else if pyIsAbs p then p
  else pyNormpath (pyJoin deps.static_dir p)

/-- `load_csv_md_cached` (`csv_handler.py`, lines 17–23): serve from the
cache, else convert — "let it raise if broken" — and cache the result.
Returns the text together with the updated cache. -/
def load_csv_md_cached (fs : String → Option String) (cache : List (String × String))
    (resolved_path : String) : Except String (String × List (String × String)) :=
  match dictGet cache resolved_path with
  | some cached => .ok (cached, cache)
  | none =>
    match csv_to_markdown fs resolved_path with
    | .error e => .error e
    | .ok md => .ok (md, dictInsert cache resolved_path md)

/-- The gather of `load_one` jobs in `batch_load_csv`, determinized in the
sorted path order the code submits them in: any raising job makes the gather
raise. -/
def loadCsvFold (deps : Deps) : List String → List (String × String) →
    Except String (List (String × String) × List (String × String))
  | [], cache => .ok ([], cache)
  | orig :: rest, cache =>
    let resolved := resolve_csv_path deps orig
    match load_csv_md_cached deps.fs cache resolved with
    | .error e => .error e
    | .ok (md, cache') =>
      match loadCsvFold deps rest cache' with
      | .error e => .error e
      | .ok (m, cacheF) => .ok ((orig, md) :: m, cacheF)

/-- `batch_load_csv` (`csv_handler.py`, lines 26–39): the set of truthy
`csv_path` values of the docs, sorted, each loaded through the cache;
returns the orig-path → rendered-text map and the updated cache. -/
def batch_load_csv (deps : Deps) (docs : List Document) :
    Except String (List (String × String) × List (String × String)) :=
  let orig_paths := dedupFirst (docs.filterMap fun d =>
    if truthy d.metadata.csvPath then some (orEmpty d.metadata.csvPath) else none) []
  if orig_paths.isEmpty then .ok ([], deps.csv_cache)
  else loadCsvFold deps (sortStrings orig_paths) deps.csv_cache

/-! ## ContentRenderer (`app/service/filter_service/content_builder.py`) -/

/-- The per-document renderer `one` inside `batch_build_content`
(`content_builder.py`, lines 13–79). -/
def buildOne (csv_md_map : List (String × String)) (include_full_table : Bool)
    (doc : Document) : String :=
  let doc_type := doc.metadata.type
  let csv_path := doc.metadata.csvPath
  let section_title := doc.metadata.sectionTitle
  let caption := doc.metadata.caption
  let md_table := dictGetD csv_md_map (orEmpty csv_path) ""
  let tableSuffix : String :=
    if include_full_table then md_table else pyTake md_table 200 ++ "..."
  let content :=
    if doc_type = some FilterTEXT then
      let c := doc.pageContent
      if truthy section_title then c ++ "\nSection: " ++ orEmpty section_title else c
    else if doc_type = some FilterTENDIK then
      let c := doc.pageContent
      let pairs_data := doc.metadata.pairs
      let pair_data := doc.metadata.pair
      if pairs_data ≠ none then
        ("Table Caption: " ++ caption ++ "\n" ++ c)
        ++ (if truthy csv_path then
              (if include_full_table then "\nFull Table: " ++ caption ++ "\n" ++ md_table
               else "\nTable Preview: " ++ caption ++ "\n" ++ pyTake md_table 200 ++ "...")
            else "")
      else if pair_data ≠ none then
        ("Staff Data: " ++ caption ++ "\n" ++ c)
        ++ (if truthy csv_path then "\n" ++ tableSuffix else "")
      else
        if truthy csv_path then "Staff Data: " ++ caption ++ "\n" ++ c ++ "\n" ++ tableSuffix
        else c
    else if doc_type = some FilterROWTAB then
      let c := doc.pageContent
      if truthy csv_path then "Table: " ++ caption ++ "\n" ++ c ++ "\n" ++ tableSuffix
      else c
    else if doc_type = some FilterIMAGE then
      "Konten Mengandung gambar , " ++ caption
    else if doc_type = some FilterCAPTAB then
      ("Table Caption: " ++ caption)
      ++ (if truthy csv_path then
            (if include_full_table then " \n Full Table: " ++ caption ++ "\n" ++ md_table
             else " \n Table Preview: " ++ caption ++ "\n" ++ pyTake md_table 200 ++ "...")
          else "")
    else doc.pageContent
  if truthy section_title then content ++ "\nsection title: " ++ orEmpty section_title
  else content

/-- `batch_build_content` (`content_builder.py`, lines 10–81): load the CSV
side-files (a raise propagates), render each doc.  Returns the rendered
strings and the updated CSV cache. -/
def batch_build_content (deps : Deps) (docs : List Document)
    (include_full_table : Bool) :
    Except String (List String × List (String × String)) :=
  match batch_load_csv deps docs with
  | .error e => .error e
  | .ok (csv_md_map, cache') =>
    .ok (docs.map (buildOne csv_md_map include_full_table), cache')

/-! ## JSON reply parsing shared by both relevance evaluators -/

/-- `re.search(r"\{.*\}", s, re.DOTALL)`: the span from the first `\x7b` to
the last `\x7d`, if the latter comes after the former. -/
def extractJsonSpan (s : String) : Option String :=
  let cs := s.toList
  match cs.findIdx? (fun c => c = '{'), cs.reverse.findIdx? (fun c => c = '}') with
  | some i, some jr =>
    let j := cs.length - 1 - jr
    if i < j then some (String.mk ((cs.drop i).take (j - i + 1))) else none
  | _, _ => none

def dropOptNl : List Char → List Char
  | '\n' :: t => t
  | t => t

/-- One pass of `re.sub(pat ++ r'\n?', '', s)` for a literal `pat`:
left-to-right scan, each occurrence (plus an optional following newline)
removed, resuming after the removed text. -/
def stripTokAux (pat : List Char) : Nat → List Char → List Char
  | 0, l => l
  | _ + 1, [] => []
  | fuel + 1, c :: rest =>
    if pat.isPrefixOf (c :: rest) then
      stripTokAux pat fuel (dropOptNl ((c :: rest).drop pat.length))
    else c :: stripTokAux pat fuel rest

/-- The markdown-fence stripping of the batched parser:
`re.sub(r'```json\n?', '', ·)` then `re.sub(r'```\n?', '', ·)` then
`.strip()`. -/
def stripCodeFences (s : String) : String :=
  let a := stripTokAux "```json".toList s.toList.length s.toList
  let b := stripTokAux "```".toList a.length a
  pyTrim (String.mk b)

/-- The fixed apology message of the per-item fallback. -/
def apologyMsg : String :=
  "Mohon maaf, data sedang tidak tersedia. Mohon hubungi pengelola."

/-! ## Per-item relevance evaluation
(`flask_app/app/service/filter_service/relevance_evaluator.py`) -/

namespace ItemEval

/-- `get_cache_key` (lines 13–14):
`f"{doc.metadata.get('id', '')}:{hash(query.lower().strip())}"`. -/
def get_cache_key (deps : Deps) (doc : Document) (query : String) : String :=
  orEmpty doc.metadata.id ++ ":" ++ toString (deps.hashFn (pyTrim (pyLower query)))

/-- The `try`-block parse of the per-item reply (lines 52–65): extract the
`\x7b...\x7d` span, decode it, read `is_relevant` (default `False`) and
`explanation` (default `""`); any failure is caught and degraded to
`(False, apologyMsg)`. -/
def parseItemReply (deps : Deps) (response_text : String) : Bool × String :=
  match extractJsonSpan response_text with
  | none => (false, apologyMsg)
  | some json_str =>
    match deps.jsonItem json_str with
    | none => (false, apologyMsg)
    | some result => (result.is_relevant.getD false, result.explanation.getD "")

/-- The per-item `batch_relevance_check` (lines 17–65).  The prompt text is
opaque configuration; only the reply matters.  Content building and the
`llm.ainvoke` call sit OUTSIDE the `try` block, so their exceptions
propagate; only the parse is protected. -/
def batch_relevance_check (deps : Deps) (doc : Document) (_query : String) :
    Except String ((Bool × String) × Deps) :=
  match batch_build_content deps [doc] false with
  | .error e => .error e
  | .ok (_contents, cache') =>
    let deps' := { deps with csv_cache := cache' }
    match deps.llmItem doc with
    | .failure => .error "llm.ainvoke raised"
    | .text response_text => .ok (parseItemReply deps response_text, deps')

/-- `eval_one` (lines 84–93): `asyncio.wait_for(batch_relevance_check(...),
timeout=15)` under a semaphore.  A timeout raises `asyncio.TimeoutError`
here — there is no `try` around it — and the verdict is written to the
relevance cache before filtering. -/
def eval_one (deps : Deps) (query : String) (doc : Document) (score : Score) :
    Except String (Option (Document × Score) × Deps) :=
  if deps.timedOut doc then .error "asyncio.TimeoutError"
  else
    match batch_relevance_check deps doc query with
    | .error e => .error e
    | .ok ((relevant, explanation), deps') =>
      let cache_key := get_cache_key deps doc query
      let deps'' := { deps' with
        relevance_cache := dictInsertBool deps'.relevance_cache cache_key relevant }
      if relevant then
        .ok (some ({ doc with metadata :=
          { doc.metadata with explanation := some explanation } }, score), deps'')
      else .ok (none, deps'')
where
  dictInsertBool : List (String × Bool) → String → Bool → List (String × Bool)
    | [], k, v => [(k, v)]
    | (k', v') :: rest, k, v =>
      if k' = k then (k, v) :: rest else (k', v') :: dictInsertBool rest k v

/-- The `asyncio.gather` over the `eval_one` tasks, determinized in
submission order: any raising task makes the gather — and hence
`evaluate_relevance` — raise. -/
def gatherEval (query : String) : Deps → List (Document × Score) →
    Except String (List (Option (Document × Score)) × Deps)
  | deps, [] => .ok ([], deps)
  | deps, (d, s) :: rest =>
    match eval_one deps query d s with
    | .error e => .error e
    | .ok (r, deps') =>
      match gatherEval query deps' rest with
      | .error e => .error e
      | .ok (rs, depsF) => .ok (r :: rs, depsF)

/-- `evaluate_relevance` (lines 68–96): cache split, then a gathered
per-candidate evaluation of the cache misses; returns cache hits plus newly
relevant candidates (and the updated dependency state). -/
def evaluate_relevance (deps : Deps) (docs_to_process : List (Document × Score))
    (query : String) : Except String (List (Document × Score) × Deps) :=
  if docs_to_process.isEmpty then .ok ([], deps)
  else
    let cache_results := docs_to_process.filter fun p =>
      dictGet deps.relevance_cache (get_cache_key deps p.1 query) = some true
    let uncached := docs_to_process.filter fun p =>
      dictGet deps.relevance_cache (get_cache_key deps p.1 query) = none
    if uncached.isEmpty then .ok (cache_results, deps)
    else
      match gatherEval query deps uncached with
      | .error e => .error e
      | .ok (eval_results, depsF) =>
        .ok (cache_results ++ eval_results.filterMap id, depsF)

end ItemEval

/-! ## Batched relevance evaluation
(`app/service/filter_service/relevance_evaluator.py`) -/

/-- `BatchRelevanceResponse` (`app/model/chroma_types.py`). -/
structure BatchRelevanceResponse where
  rationale : String
  ids : List Int
  deriving DecidableEq, Repr

namespace BatchEval

/-- `format_document_with_tag` (lines 12–39). -/
def format_document_with_tag (doc : Document) (content : String) (doc_num : Nat) :
    String :=
  let doc_type := doc.metadata.type.getD "unknown"
  let section_title :=
    if truthy doc.metadata.sectionTitle then orEmpty doc.metadata.sectionTitle else "N/A"
  let caption := doc.metadata.caption
  "[" ++ toString doc_num ++ "]\n"
  ++ "Type: " ++ doc_type ++ "\n"
  ++ "section_title: " ++ section_title ++ "\n"
  ++ (if !caption.isEmpty then "Caption: " ++ caption ++ "\n" else "")
  ++ "\n" ++ content ++ "\n"
  ++ "---\n"

/-- The `except` fallback of the batched check (lines 134–143): keep every
ordinal `1..n`.  (The Python rationale also embeds `str(e)`, the exception's
repr — an external artifact abbreviated here; no claim reads it.) -/
def failOpen (n : Nat) : BatchRelevanceResponse :=
  { rationale := "Error in evaluation, returning all documents."
    ids := (List.range n).map fun (i : Nat) => (i : Int) + 1 }

/-- The batched `batch_relevance_check` (lines 42–143).  The prompt is
opaque configuration; `deps.llmBatch` is the reply of the single judgment
call.  The whole call-and-parse sits inside one `try`: an `ainvoke`
exception, a missing JSON object, a decode failure or a validation failure
all fall to the fail-open handler. -/
def batch_relevance_check (deps : Deps) (docs_with_content : List (Document × String))
    (_query : String) : BatchRelevanceResponse :=
  match deps.llmBatch with
  | .failure => failOpen docs_with_content.length
  | .text response_text =>
    let json_string := stripCodeFences response_text
    match extractJsonSpan json_string with
    | none => failOpen docs_with_content.length
    | some j =>
      match deps.jsonBatch j with
      | none => failOpen docs_with_content.length
      | some parsed =>
        { rationale := parsed.rationale.getD "", ids := parsed.ids.getD [] }

end BatchEval

/-- `filter_docs_by_ids` (lines 146–172): empty id list short-circuits to
`[]`; else keep the docs whose 1-based position is listed, paired with their
metadata score. -/
def filter_docs_by_ids (docs_with_content : List (Document × String))
    (evaluation : BatchRelevanceResponse) : List (Document × Score) :=
  if evaluation.ids.isEmpty then []
  else docs_with_content.enum.filterMap fun ip =>
    if ((ip.1 : Int) + 1) ∈ evaluation.ids then some (ip.2.1, ip.2.1.metadata.score)
    else none

/-! ## Deduplicator (`app/service/filter_service/deduplicator.py`) -/

/-- Python `\w` on ASCII: `[A-Za-z0-9_]`. -/
def charIsWord (c : Char) : Bool := c.isAlpha || c.isDigit || c = '_'

/-- `normalize_caption` (`deduplicator.py`, lines 16–22): lowercase, strip
non-word non-space characters, token-sort, rejoin. -/
def normalize_caption (caption : String) : String :=
  if caption.isEmpty then ""
  else
    let cleaned_caption :=
      String.mk ((pyLower caption).toList.filter fun c => charIsWord c || isWs c)
    String.intercalate " " (sortStrings (pySplitWs cleaned_caption))

/-- The running state of the `batch_deduplicate` loop: the four output
accumulators and the four `used_*` sets. -/
structure DedupState where
  all_texts : List String := []
  all_metadatas : List Meta := []
  image_dict : List (String × String) := []
  csv_dict : List (String × String) := []
  used_ids : List String := []
  used_contents : List String := []
  used_normalized_image_captions : List String := []
  used_normalized_csv_captions : List String := []
  deriving DecidableEq, Repr

/-- Register one person's image under the caption-normalization discipline
(the shared body of the `pair` and `pairs` branches, lines 63–69 / 85–93). -/
def registerPerson (st : DedupState) (img_path person_name : String) : DedupState :=
  if !img_path.isEmpty && !person_name.isEmpty then
    let person_normalized := normalize_caption person_name
    if !person_normalized.isEmpty
        && !(st.used_normalized_image_captions.contains person_normalized) then
      { st with image_dict := dictInsert st.image_dict img_path person_name
                used_normalized_image_captions :=
                  st.used_normalized_image_captions ++ [person_normalized] }
    else st
  else st

/-- The caption-based reference registration (lines 40–51). -/
def processCaption (st : DedupState) (meta : Meta) : DedupState :=
  let caption := meta.caption
  if caption.isEmpty then st
  else
    let normalized_caption := normalize_caption caption
    if normalized_caption.isEmpty then st
    else
      let st1 :=
        if truthy meta.imagePath
            && !(st.used_normalized_image_captions.contains normalized_caption) then
          { st with image_dict := dictInsert st.image_dict (orEmpty meta.imagePath) caption
                    used_normalized_image_captions :=
                      st.used_normalized_image_captions ++ [normalized_caption] }
        else st
      if truthy meta.csvPath
          && !(st1.used_normalized_csv_captions.contains normalized_caption) then
        { st1 with csv_dict := dictInsert st1.csv_dict (orEmpty meta.csvPath) caption
                   used_normalized_csv_captions :=
                     st1.used_normalized_csv_captions ++ [normalized_caption] }
      else st1

/-- The `pair` branch (lines 55–73): a parse error or a wrong shape is
logged and skipped; a 2-element pair with truthy components is registered. -/
def processPair (st : DedupState) (meta : Meta) : DedupState :=
  match meta.pair with
  | none => st
  | some .parseError => st
  | some .notPair => st
  | some (.pairOf img name) => registerPerson st img name

/-- The `pairs` branch (lines 75–99). -/
def processPairs (st : DedupState) (meta : Meta) : DedupState :=
  match meta.pairs with
  | none => st
  | some .parseError => st
  | some .notList => st
  | some (.items l) =>
    l.foldl (fun st it =>
      match it with
      | .badItem => st
      | .item img name => registerPerson st img name) st

/-- One iteration of the `batch_deduplicate` loop (lines 24–99): skip the
item when its whitespace-normalized content was already seen, or when it has
a truthy id that was already seen; otherwise record it, emit its prefixed
text block and metadata, and run the reference registrations. -/
def dedupStep (st : DedupState) (p : Document × String) : DedupState :=
  let doc := p.1
  let content := p.2
  let meta := doc.metadata
  let doc_id := meta.id
  let normalized_content := normalizeWs content
  if normalized_content ∈ st.used_contents
      ∨ (truthy doc_id = true ∧ orEmpty doc_id ∈ st.used_ids) then st
  else
    let st := { st with
      used_ids := if truthy doc_id then st.used_ids ++ [orEmpty doc_id] else st.used_ids
      used_contents := st.used_contents ++ [normalized_content] }
    let pfx := "[" ++ pyShowOptId doc_id ++ "|" ++ fmtScore meta.score ++ "]"
    let st := { st with
      all_texts := st.all_texts ++ [pfx ++ " " ++ content]
      all_metadatas := st.all_metadatas ++ [meta] }
    let st := processCaption st meta
    if meta.type = some FilterTENDIK then processPairs (processPair st meta) meta
    else st

/-- `batch_deduplicate` (`deduplicator.py`, lines 9–103). -/
def batch_deduplicate (docs_with_content : List (Document × String)) :
    List String × List Meta × List (String × String) × List (String × String) :=
  let st := docs_with_content.foldl dedupStep {}
  (st.all_texts, st.all_metadatas, st.image_dict, st.csv_dict)

/-! ## FilterService orchestration
(`flask_app/app/service/filter_service/__init__.py`) -/

/-- Association-list version of `groups.setdefault(key, []).append(v)`:
Python dict key order is insertion order. -/
def assocAppend {β : Type} (l : List (Option String × List β)) (k : Option String)
    (v : β) : List (Option String × List β) :=
  match l with
  | [] => [(k, [v])]
  | (k', vs) :: rest =>
    if k' = k then (k', vs ++ [v]) :: rest else (k', vs) :: assocAppend rest k v

/-- `group_by_modality` (`vector_search.py`, lines 23–28): writes the score
into each doc's metadata and groups by the `type` key. -/
def group_by_modality (hits : List (Document × Score)) :
    List (Option String × List (Document × Score)) :=
  hits.foldl (fun groups ds =>
    let d := { ds.1 with metadata := { ds.1.metadata with score := ds.2 } }
    assocAppend groups d.metadata.type (d, ds.2)) []

/-- The dictionary `get_rag` returns. -/
structure Bundle where
  context : String
  image_paths : List (String × String)
  csv_paths : List (String × String)
  metadatas : List Meta
  csv_content : List (String × String)
  query_type_used : Modalities
  filter_message : String
  deriving DecidableEq, Repr

/-- Step-6 deduplication inside `get_rag` (lines 113–118): key is
`csv_path or id-or-empty`, first occurrence wins. -/
def ragKey (d : Document) : String :=
  if truthy d.metadata.csvPath then orEmpty d.metadata.csvPath
  else orEmpty d.metadata.id

def firstDedup : List (Document × Score) → List String → List (Document × Score)
  | [], _ => []
  | (d, s) :: rest, seen =>
    let key := ragKey d
    if key ∈ seen then firstDedup rest seen
    else (d, s) :: firstDedup rest (key :: seen)

/-- `FilterService.get_rag` (`__init__.py`, lines 42–141).  The similarity
search is external: `search_result` is the store's reply for this request
(the hits for `query`/`top_k`/the built predicate).  The batched flow:
build filter → search (raise on zero hits) → group → expand text docs →
preview render → one batched relevance call → filter by kept ordinals
(return the minimal empty bundle when nothing survives) → csv-path/id dedup
→ full render → final dedup → bundle. -/
def applyWindow (deps₀ : Deps) (context_expansion_window : Option Nat) : Deps :=
  match context_expansion_window with
  | some w => { deps₀ with window := max 1 w }
  | none => deps₀

/-- Steps 1–2 of `get_rag` after the zero-hit check: group the raw hits by
modality, expand the TEXT group (a raise propagates), keep the other groups
as-is, in group-insertion order. -/
def ragCandidates (deps : Deps) (raw_hits : List (Document × Score)) :
    Except String (List (Document × Score)) :=
  let groups := group_by_modality raw_hits
  let textPart : Except String (List (Document × Score)) :=
    match groups.find? fun g => g.1 = some FilterTEXT with
    | some g =>
      match batch_expand_text deps (g.2.map (·.1)) with
      | .error e => .error e
      | .ok expanded_docs => .ok (expanded_docs.map fun d => (d, d.metadata.score))
    | none => .ok []
  match textPart with
  | .error e => .error e
  | .ok textDocs =>
    let others := (groups.filter fun g => g.1 ≠ some FilterTEXT).flatMap (·.2)
    .ok (textDocs ++ others)

def get_rag (deps₀ : Deps) (search_result : List (Document × Score)) (query : String)
    (query_types : Modalities) (year : Option String)
    (context_expansion_window : Option Nat) (relevance_query : Option String) :
    Except String Bundle :=
  let deps := applyWindow deps₀ context_expansion_window
  let built := build_filter query_types year
  let raw_hits := search_result
  if raw_hits.isEmpty then
    .error ("RAG ERROR: No hits found for query '" ++ query ++ "' with filter "
      ++ pyReprFilter built.1)
  else
    match ragCandidates deps raw_hits with
    | .error e => .error e
    | .ok all_docs =>
      if all_docs.isEmpty then .error "No documents after expansion"
      else
        let docs_only := all_docs.map (·.1)
        match batch_build_content deps docs_only false with
        | .error e => .error e
        | .ok (preview_contents, cache₁) =>
          let deps := { deps with csv_cache := cache₁ }
          let docs_with_preview := docs_only.zip preview_contents
          let relevance_evaluation := BatchEval.batch_relevance_check deps
            docs_with_preview
            (if truthy relevance_query then orEmpty relevance_query else query)
          let relevant_docs := filter_docs_by_ids docs_with_preview relevance_evaluation
          if relevant_docs.isEmpty then
            .ok { context := ""
                  image_paths := []
                  csv_paths := []
                  metadatas := []
                  csv_content := []
                  query_type_used := query_types
                  filter_message :=
                    "No relevant documents found. Filter: " ++ pyReprFilter built.1 }
          else
            let deduped := firstDedup relevant_docs []
            let docs_filtered := deduped.map (·.1)
            match batch_build_content deps docs_filtered true with
            | .error e => .error e
            | .ok (full_contents, _cache₂) =>
              let docs_with_full_content := docs_filtered.zip full_contents
              let out := batch_deduplicate docs_with_full_content
              let image_paths := out.2.2.1.map fun pc =>
                (pyJoin deps.static_dir pc.1, pc.2)
              let csv_paths := out.2.2.2.map fun pc =>
                (pyJoin deps.static_dir pc.1, pc.2)
              let combined_context := String.intercalate "\n\n" out.1
              .ok { context := combined_context
                    image_paths := image_paths
                    csv_paths := csv_paths
                    metadatas := out.2.1
                    csv_content := []
                    query_type_used := query_types
                    filter_message :=
                      "Batch relevance: " ++ pyTake relevance_evaluation.rationale 100
                      ++ "... | Filter: " ++ pyReprFilter built.1 }

/-! ## Observers and concrete fixtures used by the theorems below -/

/-- Whether the built predicate's type clause is an explicit `$in` set that
lists the given type (the "type set" of the spec's invariant). -/
def typeSetContains (f : BuiltFilter) (t : String) : Bool :=
  match f.typeFilter with
  | .inList ts => ts.contains t
  | .existsTrue => false

/-- Did the computation return normally (no exception)? -/
def isOkE {α : Type} : Except String α → Bool
  | .ok _ => true
  | .error _ => false

/-- A degenerate tokenizer for fixtures whose pipeline never tokenizes. -/
def trivTok : Tokenizer Nat := ⟨fun _ => [], fun _ => ""⟩

/-- A character-level instantiation of the abstract subword tokenizer, used
to evaluate the merge theorems on concrete inputs. -/
def charTok : Tokenizer Char := ⟨fun s => s.toList, fun l => String.mk l⟩

/-- Fixture: a dependency record whose per-item judgment call always hits
its 15-second deadline. -/
def timeoutDeps : Deps :=
  { tok := trivTok, timedOut := fun _ => true, llmItem := fun _ => .text "ok" }

def timeoutDoc : Document := { pageContent := "t", metadata := { id := some "d1" } }

/-- Fixture: two candidates, the first one's judgment reply unparsable, the
second one's reply parsed as relevant; no timeouts, no client exceptions. -/
def cleanDeps : Deps :=
  { tok := trivTok
    timedOut := fun _ => false
    llmItem := fun d => if d.metadata.id = some "bad" then .text "no json here"
                        else .text "\x7b\"is_relevant\": true\x7d"
    jsonItem := fun s => if s = "\x7b\"is_relevant\": true\x7d"
                         then some { is_relevant := some true, explanation := some "ok" }
                         else none }

def badDoc : Document := { pageContent := "b", metadata := { id := some "bad" } }

def goodDoc : Document := { pageContent := "g", metadata := { id := some "good" } }

/-- Fixture for the batched fail-open theorem: the single judgment reply
contains no JSON object. -/
def unparsableBatchDeps : Deps :=
  { tok := trivTok, llmBatch := .text "not a json object" }

def batchDocs : List (Document × String) :=
  [ ({ pageContent := "a", metadata := { id := some "a", score := 2 } }, "pa")
  , ({ pageContent := "b", metadata := { id := some "b", score := 5 } }, "pb") ]

/-- Fixture for the CSV-failure theorem: an empty filesystem and a table
item referencing `t.csv`. -/
def missingCsvDeps : Deps :=
  { tok := trivTok, static_dir := "/static", fs := fun _ => none }

def missingCsvDoc : Document :=
  { pageContent := "row"
    metadata := { type := some FilterCAPTAB, id := some "t1", caption := "cap"
                  csvPath := some "t.csv" } }

/-- Fixture for the empty-bundle path of `get_rag`: one image hit, and a
batched verdict that parses successfully to an empty kept-ordinal list. -/
def emptyVerdictDeps : Deps :=
  { tok := trivTok
    llmBatch := .text "\x7b\"rationale\": \"none relevant\", \"ids\": []\x7d"
    jsonBatch := fun s =>
      if s = "\x7b\"rationale\": \"none relevant\", \"ids\": []\x7d"
      then some { rationale := some "none relevant", ids := some [] }
      else none }

def imageHit : Document :=
  { pageContent := ""
    metadata := { type := some FilterIMAGE, id := some "img1", caption := "a chart" } }

/-- `imageHit` after `group_by_modality` wrote the search score into its
metadata. -/
def imageHitScored : Document :=
  { pageContent := ""
    metadata := { type := some FilterIMAGE, id := some "img1", caption := "a chart"
                  score := 3 } }

/-- The four accumulators of `DedupState` that drive skipping and the final
text/metadata outputs (as opposed to the reference registries, which the
registration steps touch). -/
def DedupState.core (st : DedupState) :
    List String × List Meta × List String × List String :=
  (st.all_texts, st.all_metadatas, st.used_ids, st.used_contents)

/-! # Theorems -/

/-- C6: for a text item with chunk index `idx`, section chunk count `total`
and window `w ≥ 2`, the fetched window is `half = w // 2`,
`start = max(0, idx - half)`, `end = min(total, idx + half + 1)`; when that
span is shorter than `w` because it hit a section boundary and the section
has at least `w` chunks, the window is shifted to the available side so that
`end - start = w`; in particular `total = 10, idx = 0, w = 4` gives `[0, 4)`
and `total = 10, idx = 9, w = 4` gives `[6, 10)`. -/
theorem expand_window_spec (idx total w : Nat) (hw : 2 ≤ w) (_hidx : idx < total) :
    (w ≤ min total (idx + w / 2 + 1) - max 0 (idx - w / 2) →
        expandWindow idx total w = (max 0 (idx - w / 2), min total (idx + w / 2 + 1))) ∧
    (min total (idx + w / 2 + 1) - max 0 (idx - w / 2) < w → w ≤ total →
        (expandWindow idx total w).2 - (expandWindow idx total w).1 = w) ∧
    expandWindow 0 10 4 = (0, 4) ∧ expandWindow 9 10 4 = (6, 10) := by
  refine ⟨?_, ?_, by decide, by decide⟩
  · intro h
    simp only [expandWindow]
    rw [if_neg (by omega)]
  · intro h hwt
    simp only [expandWindow]
    rw [if_pos (by omega)]
    by_cases h0 : max 0 (idx - w / 2) = 0
    · rw [if_pos h0]
      simp only [h0]
      omega
    · rw [if_neg h0]
      have he : min total (idx + w / 2 + 1) = total := by omega
      rw [if_pos he]
      simp only [he]
      omega

/-- Witness for C6 at the boundary case `idx = 9, total = 10, w = 4`. -/
theorem expand_window_spec_witness :
    2 ≤ 4 ∧ 9 < 10 ∧ (expandWindow 9 10 4).2 - (expandWindow 9 10 4).1 = 4 :=
  ⟨by decide, by decide,
    (expand_window_spec 9 10 4 (by decide) (by decide)).2.1 (by decide) (by decide)⟩

lemma enumFrom_filterMap_keep_all (ids : List Int) :
    ∀ (l : List (Document × String)) (k : Nat),
      (∀ i : Nat, k ≤ i → i < k + l.length → ((i : Int) + 1) ∈ ids) →
      ((l.enumFrom k).filterMap fun ip =>
          if ((ip.1 : Int) + 1) ∈ ids then some (ip.2.1, ip.2.1.metadata.score)
          else none)
        = l.map fun p => (p.1, p.1.metadata.score)
  | [], _, _ => rfl
  | p :: t, k, h => by
    have hk : ((k : Int) + 1) ∈ ids := h k le_rfl (by simp only [List.length_cons]; omega)
    simp only [List.enumFrom, List.filterMap_cons, if_pos hk, List.map_cons]
    rw [enumFrom_filterMap_keep_all ids t (k + 1) fun i h1 h2 => by
      refine h i (by omega) ?_
      simp only [List.length_cons]
      omega]

lemma filter_docs_failOpen (docs : List (Document × String)) :
    filter_docs_by_ids docs (BatchEval.failOpen docs.length)
      = docs.map fun p => (p.1, p.1.metadata.score) := by
  cases docs with
  | nil => rfl
  | cons hd tl =>
    unfold filter_docs_by_ids
    rw [if_neg (by simp [BatchEval.failOpen, List.range_succ_eq_map])]
    exact enumFrom_filterMap_keep_all
      ((List.range (hd :: tl).length).map fun (i : Nat) => (i : Int) + 1) (hd :: tl) 0
      fun i _ h2 => List.mem_map.mpr
        ⟨i, List.mem_range.mpr (show i < (hd :: tl).length by omega), rfl⟩

/-- C4: in batched relevance evaluation of `n` candidates, an unparsable
judgment reply (no top-level JSON object, or a decode failure) makes the
evaluator fail open: the verdict's kept ordinals are exactly `1..n`, and
filtering by that verdict keeps every submitted candidate. -/
theorem batch_relevance_fail_open
    (deps : Deps) (docs : List (Document × String)) (q rt : String)
    (hreply : deps.llmBatch = .text rt)
    (hparse : ∀ j, extractJsonSpan (stripCodeFences rt) = some j →
      deps.jsonBatch j = none) :
    (BatchEval.batch_relevance_check deps docs q).ids
        = (List.range docs.length).map (fun (i : Nat) => (i : Int) + 1) ∧
    filter_docs_by_ids docs (BatchEval.batch_relevance_check deps docs q)
        = docs.map fun p => (p.1, p.1.metadata.score) := by
  have hfo : BatchEval.batch_relevance_check deps docs q
      = BatchEval.failOpen docs.length := by
    unfold BatchEval.batch_relevance_check
    rw [hreply]
    dsimp only
    cases hE : extractJsonSpan (stripCodeFences rt) with
    | none => rfl
    | some j =>
      dsimp only
      rw [hparse j hE]
  exact ⟨by rw [hfo]; rfl, by rw [hfo]; exact filter_docs_failOpen docs⟩

/-- Witness for C4: a two-candidate batch whose reply contains no JSON
object keeps ordinals `[1, 2]`, i.e. both candidates. -/
theorem batch_relevance_fail_open_witness :
    (BatchEval.batch_relevance_check unparsableBatchDeps batchDocs "q").ids = [1, 2] ∧
    filter_docs_by_ids batchDocs
        (BatchEval.batch_relevance_check unparsableBatchDeps batchDocs "q")
      = batchDocs.map fun p => (p.1, p.1.metadata.score) := by
  have h := batch_relevance_fail_open unparsableBatchDeps batchDocs "q"
    "not a json object" rfl
    (fun j hj => Option.noConfusion
      ((show extractJsonSpan (stripCodeFences "not a json object") = none by decide).symm.trans hj))
  exact ⟨h.1.trans (by decide), h.2⟩

lemma registerPerson_core (st : DedupState) (a b : String) :
    (registerPerson st a b).core = st.core := by
  unfold registerPerson
  dsimp only
  split_ifs <;> rfl

lemma processCaption_core (st : DedupState) (m : Meta) :
    (processCaption st m).core = st.core := by
  unfold processCaption
  dsimp only
  split_ifs <;> rfl

lemma processPair_core (st : DedupState) (m : Meta) :
    (processPair st m).core = st.core := by
  unfold processPair
  cases m.pair with
  | none => rfl
  | some v =>
    cases v with
    | parseError => rfl
    | notPair => rfl
    | pairOf a b => exact registerPerson_core st a b

lemma foldPairs_core :
    ∀ (l : List PairItem) (st : DedupState),
      (l.foldl (fun st it =>
        match it with
        | .badItem => st
        | .item img name => registerPerson st img name) st).core = st.core
  | [], _ => rfl
  | it :: t, st =>
    (foldPairs_core t _).trans
      (by cases it with
          | badItem => rfl
          | item a b => exact registerPerson_core st a b)

lemma processPairs_core (st : DedupState) (m : Meta) :
    (processPairs st m).core = st.core := by
  unfold processPairs
  cases m.pairs with
  | none => rfl
  | some v =>
    cases v with
    | parseError => rfl
    | notList => rfl
    | items l => exact foldPairs_core l st

lemma dedupStep_skip (st : DedupState) (doc : Document) (content : String)
    (h : normalizeWs content ∈ st.used_contents ∨
      (truthy doc.metadata.id = true ∧ orEmpty doc.metadata.id ∈ st.used_ids)) :
    dedupStep st (doc, content) = st := by
  unfold dedupStep
  dsimp only
  rw [if_pos h]

lemma dedupStep_survive_core (st : DedupState) (doc : Document) (content : String)
    (h : ¬(normalizeWs content ∈ st.used_contents ∨
      (truthy doc.metadata.id = true ∧ orEmpty doc.metadata.id ∈ st.used_ids))) :
    (dedupStep st (doc, content)).core =
      (st.all_texts ++
        ["[" ++ pyShowOptId doc.metadata.id ++ "|" ++ fmtScore doc.metadata.score
          ++ "]" ++ " " ++ content],
       st.all_metadatas ++ [doc.metadata],
       if truthy doc.metadata.id then st.used_ids ++ [orEmpty doc.metadata.id]
       else st.used_ids,
       st.used_contents ++ [normalizeWs content]) := by
  unfold dedupStep
  dsimp only
  rw [if_neg h]
  by_cases ht : doc.metadata.type = some FilterTENDIK
  · rw [if_pos ht, processPairs_core, processPair_core, processCaption_core]
    rfl
  · rw [if_neg ht, processCaption_core]
    rfl

/-- C9: final deduplication processes (item, content) pairs in input order
and skips an item iff its whitespace-normalized content was already seen or
its (present) id was already seen; hence: identical normalized content with
different ids — only the first survives; same id with different content —
only the first-seen survives; items without an id are deduplicated only by
content, never by id (two distinct-content id-less items both survive). -/
theorem batch_dedup_spec :
    (∀ (st : DedupState) (doc : Document) (content : String),
      dedupStep st (doc, content) = st ↔
        (normalizeWs content ∈ st.used_contents ∨
          (truthy doc.metadata.id = true ∧ orEmpty doc.metadata.id ∈ st.used_ids))) ∧
    (∀ (d₁ d₂ : Document) (c₁ c₂ : String),
      normalizeWs c₁ = normalizeWs c₂ →
      (batch_deduplicate [(d₁, c₁), (d₂, c₂)]).2.1 = [d₁.metadata]) ∧
    (∀ (d₁ d₂ : Document) (c₁ c₂ : String),
      truthy d₁.metadata.id = true → d₂.metadata.id = d₁.metadata.id →
      (batch_deduplicate [(d₁, c₁), (d₂, c₂)]).2.1 = [d₁.metadata]) ∧
    (∀ (d₁ d₂ : Document) (c₁ c₂ : String),
      d₁.metadata.id = none → d₂.metadata.id = none →
      normalizeWs c₁ ≠ normalizeWs c₂ →
      (batch_deduplicate [(d₁, c₁), (d₂, c₂)]).2.1 = [d₁.metadata, d₂.metadata]) := by
  have hmeta : ∀ (st : DedupState) (doc : Document) (content : String),
      ¬(normalizeWs content ∈ st.used_contents ∨
        (truthy doc.metadata.id = true ∧ orEmpty doc.metadata.id ∈ st.used_ids)) →
      (dedupStep st (doc, content)).all_metadatas = st.all_metadatas ++ [doc.metadata] :=
    fun st doc content h => congrArg (fun q => q.2.1) (dedupStep_survive_core st doc content h)
  have hcont : ∀ (st : DedupState) (doc : Document) (content : String)
      (h : ¬(normalizeWs content ∈ st.used_contents ∨
        (truthy doc.metadata.id = true ∧ orEmpty doc.metadata.id ∈ st.used_ids))),
      (dedupStep st (doc, content)).used_contents
        = st.used_contents ++ [normalizeWs content] :=
    fun st doc content h => congrArg (fun q => q.2.2.2) (dedupStep_survive_core st doc content h)
  have hids : ∀ (st : DedupState) (doc : Document) (content : String)
      (h : ¬(normalizeWs content ∈ st.used_contents ∨
        (truthy doc.metadata.id = true ∧ orEmpty doc.metadata.id ∈ st.used_ids))),
      (dedupStep st (doc, content)).used_ids
        = if truthy doc.metadata.id then st.used_ids ++ [orEmpty doc.metadata.id]
          else st.used_ids :=
    fun st doc content h => congrArg (fun q => q.2.2.1) (dedupStep_survive_core st doc content h)
  refine ⟨?_, ?_, ?_, ?_⟩
  · intro st doc content
    constructor
    · intro heq
      by_contra hc
      have hlen := congrArg (fun q => q.1.length)
        ((congrArg DedupState.core heq).symm.trans (dedupStep_survive_core st doc content hc))
      simp [DedupState.core] at hlen
    · exact dedupStep_skip st doc content
  · intro d₁ d₂ c₁ c₂ hcc
    have h₁ : ¬(normalizeWs c₁ ∈ (({} : DedupState)).used_contents ∨
        (truthy d₁.metadata.id = true ∧ orEmpty d₁.metadata.id ∈ (({} : DedupState)).used_ids)) := by
      simp [DedupState.used_contents, DedupState.used_ids]
    unfold batch_deduplicate
    dsimp only [List.foldl]
    rw [dedupStep_skip _ d₂ c₂ (Or.inl (by
      rw [hcont {} d₁ c₁ h₁]
      simp [hcc]))]
    rw [hmeta {} d₁ c₁ h₁]
    rfl
  · intro d₁ d₂ c₁ c₂ ht hid
    by_cases hcc : normalizeWs c₂ ∈ (dedupStep {} (d₁, c₁)).used_contents
    · unfold batch_deduplicate
      dsimp only [List.foldl]
      rw [dedupStep_skip _ d₂ c₂ (Or.inl hcc)]
      have h₁ : ¬(normalizeWs c₁ ∈ (({} : DedupState)).used_contents ∨
          (truthy d₁.metadata.id = true ∧ orEmpty d₁.metadata.id ∈ (({} : DedupState)).used_ids)) := by
        simp [DedupState.used_contents, DedupState.used_ids]
      rw [hmeta {} d₁ c₁ h₁]
      rfl
    · have h₁ : ¬(normalizeWs c₁ ∈ (({} : DedupState)).used_contents ∨
          (truthy d₁.metadata.id = true ∧ orEmpty d₁.metadata.id ∈ (({} : DedupState)).used_ids)) := by
        simp [DedupState.used_contents, DedupState.used_ids]
      unfold batch_deduplicate
      dsimp only [List.foldl]
      rw [dedupStep_skip _ d₂ c₂ (Or.inr ⟨by rw [hid]; exact ht, by
        rw [hids {} d₁ c₁ h₁, if_pos ht, hid]
        simp⟩)]
      rw [hmeta {} d₁ c₁ h₁]
      rfl
  · intro d₁ d₂ c₁ c₂ h₁n h₂n hne
    have h₁ : ¬(normalizeWs c₁ ∈ (({} : DedupState)).used_contents ∨
        (truthy d₁.metadata.id = true ∧ orEmpty d₁.metadata.id ∈ (({} : DedupState)).used_ids)) := by
      simp [DedupState.used_contents, DedupState.used_ids]
    have h₂ : ¬(normalizeWs c₂ ∈ (dedupStep {} (d₁, c₁)).used_contents ∨
        (truthy d₂.metadata.id = true ∧
          orEmpty d₂.metadata.id ∈ (dedupStep {} (d₁, c₁)).used_ids)) := by
      rw [hcont {} d₁ c₁ h₁]
      simp [h₂n, truthy]
      exact fun h => hne h.symm
    unfold batch_deduplicate
    dsimp only [List.foldl]
    rw [hmeta _ d₂ c₂ h₂, hmeta {} d₁ c₁ h₁]
    rfl

/-- Witness for C9: two items with different ids but identical normalized
content — only the first survives. -/
theorem batch_dedup_spec_witness :
    (batch_deduplicate
      [({ metadata := { id := some "a" } }, "x y"),
       ({ metadata := { id := some "b" } }, "x  y")]).2.1
      = [{ id := some "a" }] :=
  batch_dedup_spec.2.1 { metadata := { id := some "a" } } { metadata := { id := some "b" } }
    "x y" "x  y" (by decide)

lemma mem_insertSorted (x y : String) (l : List String) :
    x ∈ insertSorted y l ↔ x = y ∨ x ∈ l := by
  induction l with
  | nil => simp [insertSorted]
  | cons h t ih =>
    unfold insertSorted
    split_ifs
    · simp
    · simp only [List.mem_cons, ih]
      tauto

lemma mem_sortStrings (x : String) (l : List String) :
    x ∈ sortStrings l ↔ x ∈ l := by
  induction l with
  | nil => simp [sortStrings]
  | cons h t ih =>
    simp only [sortStrings, List.foldr_cons, mem_insertSorted, List.mem_cons]
    rw [show List.foldr insertSorted [] t = sortStrings t from rfl, ih]

lemma mem_dedupFirst (x : String) :
    ∀ (l seen : List String), x ∈ l → x ∉ seen → x ∈ dedupFirst l seen
  | h :: t, seen, hmem, hseen => by
    unfold dedupFirst
    by_cases hh : h ∈ seen
    · rw [if_pos hh]
      rcases List.mem_cons.mp hmem with rfl | ht
      · exact absurd hh hseen
      · exact mem_dedupFirst x t seen ht hseen
    · rw [if_neg hh]
      rcases List.mem_cons.mp hmem with rfl | ht
      · exact List.mem_cons_self _ _
      · by_cases hxh : x = h
        · subst hxh
          exact List.mem_cons_self _ _
        · exact List.mem_cons_of_mem _
            (mem_dedupFirst x t (h :: seen) ht
              (by simp only [List.mem_cons, not_or]; exact ⟨hxh, hseen⟩))

lemma dictGet_dictInsert_ne {β : Type} (c : List (String × β)) (k k' : String) (v : β)
    (h : k' ≠ k) : dictGet (dictInsert c k v) k' = dictGet c k' := by
  induction c with
  | nil =>
    simp only [dictInsert, dictGet, List.find?]
    rw [decide_eq_false (Ne.symm h)]
  | cons e rest ih =>
    by_cases he : e.1 = k
    · simp only [dictInsert, if_pos he, dictGet, List.find?]
      rw [decide_eq_false (Ne.symm h),
        decide_eq_false (fun (hek : e.1 = k') => h (hek ▸ he))]
    · simp only [dictInsert, if_neg he, dictGet, List.find?]
      cases hek : decide (e.1 = k') with
      | true => rfl
      | false => exact ih

lemma loadCsvFold_error (deps : Deps) :
    ∀ (paths : List String) (cache : List (String × String)) (o : String),
      o ∈ paths →
      dictGet cache (resolve_csv_path deps o) = none →
      deps.fs (resolve_csv_path deps o) = none →
      ∃ e, loadCsvFold deps paths cache = .error e
  | [], _, _, h, _, _ => absurd h (List.not_mem_nil _)
  | p :: rest, cache, o, hmem, hc, hfs => by
    unfold loadCsvFold
    cases hload : load_csv_md_cached deps.fs cache (resolve_csv_path deps p) with
    | error e =>
      refine ⟨e, ?_⟩
      dsimp only
      rw [hload]
    | ok r =>
      rcases List.mem_cons.mp hmem with rfl | hmem'
      · rw [load_csv_md_cached, hc, csv_to_markdown, hfs] at hload
        cases hload
      · have hcache' : dictGet r.2 (resolve_csv_path deps o) = none := by
          rw [load_csv_md_cached] at hload
          cases hcp : dictGet cache (resolve_csv_path deps p) with
          | some cached =>
            rw [hcp] at hload
            cases hload
            exact hc
          | none =>
            rw [hcp, csv_to_markdown] at hload
            cases hfsp : deps.fs (resolve_csv_path deps p) with
            | none => rw [hfsp] at hload; cases hload
            | some md =>
              rw [hfsp] at hload
              cases hload
              rw [dictGet_dictInsert_ne _ _ _ _ (fun he => by rw [he, hfsp] at hfs; cases hfs)]
              exact hc
        obtain ⟨e, he⟩ := loadCsvFold_error deps rest r.2 o hmem' hcache' hfs
        refine ⟨e, ?_⟩
        dsimp only
        rw [hload]
        dsimp only
        rw [he]

/-- C10: a rendered item whose `csv_path` resolves to a missing tabular file
makes rendering raise, and the raise propagates: `csv_to_markdown` fails
hard on a missing file, `load_csv_md_cached` does not swallow it (on a cache
miss), and `batch_build_content` propagates it to its caller. -/
theorem csv_missing_propagates :
    (∀ (fs : String → Option String) (p : String), fs p = none →
        csv_to_markdown fs p = .error ("CSV file does not exist: " ++ p)) ∧
    (∀ (fs : String → Option String) (cache : List (String × String)) (r : String),
        dictGet cache r = none → fs r = none →
        load_csv_md_cached fs cache r = .error ("CSV file does not exist: " ++ r)) ∧
    (∀ (deps : Deps) (docs : List Document) (d : Document) (p : String) (flag : Bool),
        d ∈ docs → d.metadata.csvPath = some p → p ≠ "" →
        dictGet deps.csv_cache (resolve_csv_path deps p) = none →
        deps.fs (resolve_csv_path deps p) = none →
        ∃ e, batch_build_content deps docs flag = .error e) := by
  refine ⟨?_, ?_, ?_⟩
  · intro fs p h
    rw [csv_to_markdown, h]
  · intro fs cache r hc hfs
    rw [load_csv_md_cached, hc, csv_to_markdown, hfs]
  · intro deps docs d p flag hd hcsv hp hc hfs
    have hptr : truthy d.metadata.csvPath = true := by
      rw [hcsv]
      simp only [truthy, Bool.not_eq_true']
      exact Bool.eq_false_iff.mpr fun hpe => hp ((String.isEmpty_iff p).mp hpe)
    have hmem : p ∈ docs.filterMap fun d =>
        if truthy d.metadata.csvPath then some (orEmpty d.metadata.csvPath) else none :=
      List.mem_filterMap.mpr ⟨d, hd, by rw [if_pos hptr, hcsv]; rfl⟩
    have hmem₂ : p ∈ dedupFirst (docs.filterMap fun d =>
        if truthy d.metadata.csvPath then some (orEmpty d.metadata.csvPath) else none) [] :=
      mem_dedupFirst p _ [] hmem (List.not_mem_nil p)
    have hmem₃ : p ∈ sortStrings (dedupFirst (docs.filterMap fun d =>
        if truthy d.metadata.csvPath then some (orEmpty d.metadata.csvPath) else none) []) :=
      (mem_sortStrings p _).mpr hmem₂
    obtain ⟨e, he⟩ := loadCsvFold_error deps _ deps.csv_cache p hmem₃ hc hfs
    refine ⟨e, ?_⟩
    rw [batch_build_content, batch_load_csv]
    rw [if_neg (by
      intro hemp
      rw [List.isEmpty_iff] at hemp
      rw [hemp] at hmem₂
      exact List.not_mem_nil p hmem₂)]
    rw [he]

/-- Witness for C10: a table-caption item pointing at `t.csv` over an empty
filesystem makes content rendering raise. -/
theorem csv_missing_propagates_witness :
    ∃ e, batch_build_content missingCsvDeps [missingCsvDoc] true = .error e :=
  csv_missing_propagates.2.2 missingCsvDeps [missingCsvDoc] missingCsvDoc "t.csv" true
    (List.mem_singleton.mpr rfl) rfl (by decide) rfl rfl

/-- C3 counterexample: for the unrecognized modality string `"video"` the
builder produces the `$exists` fallback, whose predicate has no type set at
all — so the staff type is not present in a type set, contrary to the claim
that it is present for every modalities argument. -/
theorem build_filter_staff_cex :
    typeSetContains (build_filter (.str "video") none).1 FilterTENDIK = false ∧
    (build_filter (.str "video") none).1.typeFilter = TypeFilter.existsTrue := by
  decide

/-- C3 amended: whenever the builder produces an explicit type set, the
staff type `tendik` is in it (and the `$exists` fallback admits every type,
staff included); a year clause `(year == requested-uppercased) OR (year ==
GENERAL)` is added exactly when the requested year uppercases to one of the
three program years, and no year clause is added when no year is given. -/
theorem build_filter_staff_year_amended (m : Modalities) (y : Option String) :
    (∀ ts, (build_filter m y).1.typeFilter = .inList ts → FilterTENDIK ∈ ts) ∧
    ((build_filter m y).1.typeFilter.admitsType FilterTENDIK = true) ∧
    (∀ yk, truthy y = true → pyUpper (orEmpty y) = yk →
      (yk = YearSARJANA ∨ yk = YearMAGISTER ∨ yk = YearDOKTOR) →
      (build_filter m y).1.yearFilter = some (yk, YearGENERAL)) ∧
    (y = none → (build_filter m y).1.yearFilter = none) := by
  refine ⟨?_, ?_, ?_, ?_⟩
  · intro ts hts
    simp only [build_filter] at hts
    split_ifs at hts <;> cases hts <;> simp
  · simp only [build_filter]
    split_ifs <;> simp [TypeFilter.admitsType]
  · intro yk hty hup hmem
    simp only [build_filter]
    rw [if_pos hty, hup]
    dsimp only
    rw [if_pos hmem]
  · intro hy
    subst hy
    simp only [build_filter]
    rfl

/-- Witness for C3 (amended) at `modalities = "table"`, `year = "sarjana"`. -/
theorem build_filter_staff_year_amended_witness :
    FilterTENDIK ∈ [FilterROWTAB, FilterCAPTAB, FilterTENDIK] ∧
    (build_filter (.str "table") (some "sarjana")).1.yearFilter
      = some (YearSARJANA, YearGENERAL) :=
  ⟨(build_filter_staff_year_amended (.str "table") (some "sarjana")).1
      [FilterROWTAB, FilterCAPTAB, FilterTENDIK] (by decide),
   (build_filter_staff_year_amended (.str "table") (some "sarjana")).2.2.1 YearSARJANA
      (by decide) (by decide) (Or.inl rfl)⟩

/-- C5 counterexample: a list argument `["text"]` is not mapped to the union
of its members' concrete types — it yields the full "all" union (containing
`image`), different from what the single name `"text"` yields; and an
unrecognized modality string does not fall back to the "all" union but to
the `$exists` filter. -/
theorem build_filter_modalities_cex :
    (build_filter (.list ["text"]) none).1.typeFilter
        = .inList [FilterTEXT, FilterIMAGE, FilterROWTAB, FilterCAPTAB, FilterTENDIK] ∧
    (build_filter (.list ["text"]) none).1.typeFilter
        ≠ (build_filter (.str "text") none).1.typeFilter ∧
    (build_filter (.str "video") none).1.typeFilter
        ≠ (build_filter (.str "all") none).1.typeFilter := by
  decide

/-- C5 amended: a single recognized modality name (case-insensitively) maps
to its concrete types plus `tendik`; the literal `"all"`, the empty string,
any list argument and `None` all yield the full union; an unrecognized
string yields the `$exists` fallback, which admits every type; no input
raises (the builder is total). -/
theorem build_filter_modalities_amended (m : Modalities) (y : Option String) :
    (build_filter m y).1.typeFilter =
      (match m with
       | .str s =>
         if s.isEmpty then
           TypeFilter.inList [FilterTEXT, FilterIMAGE, FilterROWTAB, FilterCAPTAB, FilterTENDIK]
         else if pyLower s = "text" then .inList [FilterTEXT, FilterTENDIK]
         else if pyLower s = "image" then .inList [FilterIMAGE, FilterTENDIK]
         else if pyLower s = "table" then .inList [FilterROWTAB, FilterCAPTAB, FilterTENDIK]
         else if pyLower s = "all" then
           .inList [FilterTEXT, FilterIMAGE, FilterROWTAB, FilterCAPTAB, FilterTENDIK]
         else .existsTrue
       | _ => .inList [FilterTEXT, FilterIMAGE, FilterROWTAB, FilterCAPTAB, FilterTENDIK]) ∧
    (∀ t, TypeFilter.admitsType .existsTrue t = true) := by
  constructor
  · cases m with
    | str s =>
      simp only [build_filter]
      by_cases h0 : s.isEmpty <;>
        simp only [h0, if_true, if_false] <;>
        split_ifs <;> simp_all
    | list l => rfl
    | noneV => rfl
  · intro t
    rfl

lemma findExactOverlap_some {τ : Type} [DecidableEq τ] (t1 t2 : List τ) (N : Nat)
    (h2 : 2 ≤ N) (hmatch : t1.drop (t1.length - N) = t2.take N) :
    ∀ (k : Nat), N ≤ k →
      (∀ m, m ≤ k → N < m → t1.drop (t1.length - m) ≠ t2.take m) →
      findExactOverlap t1 t2 k = some N
  | 0, hk, _ => by omega
  | 1, hk, _ => by omega
  | (n + 2), hk, hmax => by
    unfold findExactOverlap
    by_cases hN : N = n + 2
    · subst hN
      rw [if_pos hmatch]
    · rw [if_neg (hmax (n + 2) le_rfl (by omega))]
      exact findExactOverlap_some t1 t2 N h2 hmatch (n + 1) (by omega)
        fun m hm hNm => hmax m (by omega) hNm

lemma findExactOverlap_none {τ : Type} [DecidableEq τ] (t1 t2 : List τ) :
    ∀ (k : Nat), (∀ m, m ≤ k → 2 ≤ m → t1.drop (t1.length - m) ≠ t2.take m) →
      findExactOverlap t1 t2 k = none
  | 0, _ => rfl
  | 1, _ => rfl
  | (n + 2), h => by
    unfold findExactOverlap
    rw [if_neg (h (n + 2) le_rfl (by omega))]
    exact findExactOverlap_none t1 t2 (n + 1) fun m hm hm2 => h m (by omega) hm2

lemma scanFirst_none (cond : Nat → Bool) :
    ∀ (fuel j : Nat), (∀ i, j ≤ i → i < j + fuel → cond i = false) →
      scanFirst cond j fuel = none
  | 0, _, _ => rfl
  | (f + 1), j, h => by
    unfold scanFirst
    rw [h j le_rfl (by omega)]
    exact scanFirst_none cond f (j + 1) fun i hi hlt => h i (by omega) (by omega)

lemma scanPairs_none (cond : Nat → Nat → Bool) (jmax : Nat) :
    ∀ (fuel i : Nat),
      (∀ a, i ≤ a → a < i + fuel → scanFirst (cond a) 1 (jmax - 1) = none) →
      scanPairs cond jmax i fuel = none
  | 0, _, _ => rfl
  | (f + 1), i, h => by
    unfold scanPairs
    rw [h i le_rfl (by omega)]
    exact scanPairs_none cond jmax f (i + 1) fun a ha hlt => h a (by omega) (by omega)

/-- C7: for adjacent texts A and B, the merge searches overlap lengths from
`min(len(A), len(B), 2·stride)` down to 2, and at the first (largest) `N`
where the last `N` tokens of A equal the first `N` tokens of B it returns
the decoding of A's tokens followed by B's tokens with that `N`-token head
removed (`A ++ B[N:]`), stopping the search there. -/
theorem merge_overlap_largest {τ : Type} [DecidableEq τ] (tok : Tokenizer τ)
    (stride : Nat) (A B : String) (N : Nat)
    (hA : A.isEmpty = false) (hB : B.isEmpty = false)
    (h2 : 2 ≤ N)
    (hle : N ≤ min (min (tok.encode (pyTrim A)).length (tok.encode (pyTrim B)).length)
      (stride * 2))
    (hmatch : (tok.encode (pyTrim A)).drop ((tok.encode (pyTrim A)).length - N)
      = (tok.encode (pyTrim B)).take N)
    (hmax : ∀ m,
      m ≤ min (min (tok.encode (pyTrim A)).length (tok.encode (pyTrim B)).length)
        (stride * 2) →
      N < m →
      (tok.encode (pyTrim A)).drop ((tok.encode (pyTrim A)).length - m)
        ≠ (tok.encode (pyTrim B)).take m) :
    merge_with_overlap_detection tok A B stride
      = tok.decode (tok.encode (pyTrim A) ++ (tok.encode (pyTrim B)).drop N) := by
  unfold merge_with_overlap_detection
  rw [hA, hB]
  rw [if_neg (by decide)]
  dsimp only
  rw [findExactOverlap_some (tok.encode (pyTrim A)) (tok.encode (pyTrim B)) N h2 hmatch
    (min (min (tok.encode (pyTrim A)).length (tok.encode (pyTrim B)).length) (stride * 2))
    hle hmax]

/-- Witness for C7 with a character-level tokenizer: `"abcd"` and `"cdef"`
share the 2-token boundary run `cd`, so the merge yields `"abcdef"`. -/
theorem merge_overlap_largest_witness :
    merge_with_overlap_detection charTok "abcd" "cdef" 10 = "abcdef" :=
  (merge_overlap_largest charTok 10 "abcd" "cdef" 2 (by decide) (by decide) (by decide)
      (by decide) (by decide) (by decide)).trans (by decide)

/-- C8: when two nonempty texts share no boundary token run of length ≥ 2
and no split boundary word, the merge returns the first text, a single
separating space, and the second text. -/
theorem merge_no_overlap_concat {τ : Type} [DecidableEq τ] (tok : Tokenizer τ)
    (stride : Nat) (A B : String)
    (hA : A.isEmpty = false) (hB : B.isEmpty = false)
    (hnone : ∀ m,
      m ≤ min (min (tok.encode (pyTrim A)).length (tok.encode (pyTrim B)).length)
        (stride * 2) →
      2 ≤ m →
      (tok.encode (pyTrim A)).drop ((tok.encode (pyTrim A)).length - m)
        ≠ (tok.encode (pyTrim B)).take m)
    (hbound : ∀ i,
      i < min 5 (min (tok.encode (pyTrim A)).length (tok.encode (pyTrim B)).length) →
      ∀ j, j < min 10 (tok.encode (pyTrim B)).length →
      1 ≤ i → 1 ≤ j →
      boundaryCond tok (tok.encode (pyTrim A)) (tok.encode (pyTrim B)) (pyTrim B) i j
        = false) :
    merge_with_overlap_detection tok A B stride = pyTrim A ++ " " ++ pyTrim B := by
  unfold merge_with_overlap_detection
  rw [hA, hB]
  rw [if_neg (by decide)]
  dsimp only
  rw [findExactOverlap_none (tok.encode (pyTrim A)) (tok.encode (pyTrim B))
    (min (min (tok.encode (pyTrim A)).length (tok.encode (pyTrim B)).length) (stride * 2))
    fun m hm h2 => hnone m hm h2]
  by_cases hlen : (2 ≤ (tok.encode (pyTrim A)).length
      && 2 ≤ (tok.encode (pyTrim B)).length) = true
  · rw [if_pos hlen]
    rw [scanPairs_none _ _ _ 1 fun a ha hlt =>
      scanFirst_none _ _ 1 fun j hj hjlt =>
        hbound a (by omega) j (by omega) ha hj]
  · rw [if_neg hlen]

/-- Witness for C8 with a character-level tokenizer: `"hello world"` and
`"foo bar"` share no overlap, so the merge is the space concatenation. -/
theorem merge_no_overlap_concat_witness :
    merge_with_overlap_detection charTok "hello world" "foo bar" 10
      = "hello world foo bar" :=
  (merge_no_overlap_concat charTok 10 "hello world" "foo bar" (by decide) (by decide)
      (by decide) (by decide)).trans (by decide)

lemma batch_build_content_no_csv (deps : Deps) (docs : List Document) (flag : Bool)
    (h : ∀ d ∈ docs, truthy d.metadata.csvPath = false) :
    batch_build_content deps docs flag
      = .ok (docs.map (buildOne [] flag), deps.csv_cache) := by
  unfold batch_build_content batch_load_csv
  have hnil : (docs.filterMap fun d =>
      if truthy d.metadata.csvPath then some (orEmpty d.metadata.csvPath) else none) = [] :=
    List.filterMap_eq_nil_iff.mpr fun d hd => by rw [h d hd]; rfl
  rw [hnil]
  rfl

lemma eval_one_ok (deps : Deps) (q : String) (d : Document) (s : Score)
    (ht : deps.timedOut d = false) (hl : deps.llmItem d ≠ .failure)
    (hcsv : truthy d.metadata.csvPath = false) :
    ∃ (o : Option (Document × Score)) (cache' : List (String × Bool)),
      ItemEval.eval_one deps q d s = .ok (o, { deps with relevance_cache := cache' }) := by
  unfold ItemEval.eval_one
  rw [ht, if_neg (by simp)]
  unfold ItemEval.batch_relevance_check
  rw [batch_build_content_no_csv deps [d] false (by simpa using hcsv)]
  dsimp only
  cases hr : deps.llmItem d with
  | failure => exact absurd hr hl
  | text rt =>
    dsimp only
    by_cases hrel : (ItemEval.parseItemReply deps rt).1 = true
    · rw [if_pos hrel]
      exact ⟨_, _, rfl⟩
    · rw [if_neg hrel]
      exact ⟨_, _, rfl⟩

lemma eval_one_ok_timedOut_eq (deps : Deps) (q : String) (d : Document) (s : Score)
    (r : Option (Document × Score)) (deps' : Deps)
    (h : ItemEval.eval_one deps q d s = .ok (r, deps')) :
    deps'.timedOut = deps.timedOut := by
  unfold ItemEval.eval_one at h
  split_ifs at h
  unfold ItemEval.batch_relevance_check at h
  cases hc : batch_build_content deps [d] false with
  | error e => rw [hc] at h; cases h
  | ok pr =>
    rw [hc] at h
    dsimp only at h
    cases hr : deps.llmItem d with
    | failure => rw [hr] at h; cases h
    | text rt =>
      rw [hr] at h
      dsimp only at h
      split_ifs at h <;> (cases h; rfl)

lemma gatherEval_ok (q : String) :
    ∀ (l : List (Document × Score)) (deps : Deps),
      (∀ p ∈ l, deps.timedOut p.1 = false ∧ deps.llmItem p.1 ≠ .failure ∧
        truthy p.1.metadata.csvPath = false) →
      ∃ (rs : List (Option (Document × Score))) (cache' : List (String × Bool)),
        ItemEval.gatherEval q deps l = .ok (rs, { deps with relevance_cache := cache' })
  | [], deps, _ => ⟨[], deps.relevance_cache, rfl⟩
  | p :: t, deps, h => by
    obtain ⟨hpt, hpl, hpc⟩ := h p (List.mem_cons_self p t)
    obtain ⟨o, cache₁, he⟩ := eval_one_ok deps q p.1 p.2 hpt hpl hpc
    obtain ⟨rs, cacheF, hf⟩ :=
      gatherEval_ok q t { deps with relevance_cache := cache₁ }
        (fun p' hp' => h p' (List.mem_cons_of_mem p hp'))
    refine ⟨o :: rs, cacheF, ?_⟩
    show ItemEval.gatherEval q deps ((p.1, p.2) :: t) = _
    unfold ItemEval.gatherEval
    rw [he]
    dsimp only
    rw [hf]

lemma gatherEval_no_ok_of_timeout (q : String) :
    ∀ (l : List (Document × Score)) (deps : Deps) (p : Document × Score),
      p ∈ l → deps.timedOut p.1 = true →
      ∀ v, ItemEval.gatherEval q deps l ≠ .ok v
  | (d, s) :: t, deps, p, hp, htime, v => by
    show ItemEval.gatherEval q deps ((d, s) :: t) ≠ .ok v
    unfold ItemEval.gatherEval
    rcases List.mem_cons.mp hp with rfl | hpt
    · unfold ItemEval.eval_one
      rw [htime]
      intro hcon
      cases hcon
    · cases he : ItemEval.eval_one deps q d s with
      | error e => intro hcon; cases hcon
      | ok r =>
        dsimp only
        cases hg : ItemEval.gatherEval q r.2 t with
        | error e => intro hcon; cases hcon
        | ok w =>
          exact absurd hg
            (gatherEval_no_ok_of_timeout q t r.2 p hpt
              (by rw [eval_one_ok_timedOut_eq deps q d s r.1 r.2 (by rw [he])]; exact htime) w)

/-- C2 counterexample: a single uncached candidate whose per-item judgment
call hits its 15-second deadline makes `evaluate_relevance` itself raise
`asyncio.TimeoutError` — the timeout is not caught inside the candidate's
task and does propagate out of `evaluate_relevance`. -/
theorem evaluate_relevance_timeout_cex :
    ItemEval.evaluate_relevance timeoutDeps [(timeoutDoc, 1)] "q"
      = Except.error "asyncio.TimeoutError" := rfl

/-- C2 amended: a parse failure of a candidate's judgment reply is caught
inside `batch_relevance_check` and degrades to a "not relevant" verdict with
the fixed apology message for that candidate only, and a batch whose
uncached candidates neither time out nor raise in the client completes
normally; but an individual timeout is not caught inside the candidate's
task — whenever any uncached candidate times out, `evaluate_relevance`
never returns normally. -/
theorem evaluate_relevance_amended :
    (∀ (deps : Deps) (rt : String),
      (∀ j, extractJsonSpan rt = some j → deps.jsonItem j = none) →
      ItemEval.parseItemReply deps rt = (false, apologyMsg)) ∧
    (∀ (deps : Deps) (docs : List (Document × Score)) (q : String),
      (∀ p ∈ docs, deps.timedOut p.1 = false ∧ deps.llmItem p.1 ≠ .failure ∧
        truthy p.1.metadata.csvPath = false) →
      ∃ res, ItemEval.evaluate_relevance deps docs q = .ok res) ∧
    (∀ (deps : Deps) (docs : List (Document × Score)) (q : String)
        (p : Document × Score),
      p ∈ docs →
      dictGet deps.relevance_cache (ItemEval.get_cache_key deps p.1 q) = none →
      deps.timedOut p.1 = true →
      ∀ res, ItemEval.evaluate_relevance deps docs q ≠ .ok res) := by
  refine ⟨?_, ?_, ?_⟩
  · intro deps rt hj
    unfold ItemEval.parseItemReply
    cases hE : extractJsonSpan rt with
    | none => rfl
    | some j =>
      dsimp only
      rw [hj j hE]
  · intro deps docs q h
    unfold ItemEval.evaluate_relevance
    by_cases h1 : docs.isEmpty
    · rw [if_pos h1]
      exact ⟨_, rfl⟩
    · rw [if_neg h1]
      dsimp only
      by_cases h2 : (docs.filter fun p =>
          dictGet deps.relevance_cache (ItemEval.get_cache_key deps p.1 q) = none).isEmpty
      · rw [if_pos h2]
        exact ⟨_, rfl⟩
      · rw [if_neg h2]
        obtain ⟨rs, cache', hg⟩ := gatherEval_ok q
          (docs.filter fun p =>
            dictGet deps.relevance_cache (ItemEval.get_cache_key deps p.1 q) = none)
          deps (fun p hp => h p (List.mem_of_mem_filter hp))
        rw [hg]
        exact ⟨_, rfl⟩
  · intro deps docs q p hp hkey htime res
    unfold ItemEval.evaluate_relevance
    have hpu : p ∈ docs.filter fun p =>
        dictGet deps.relevance_cache (ItemEval.get_cache_key deps p.1 q) = none :=
      List.mem_filter.mpr ⟨hp, by simp [hkey]⟩
    rw [if_neg (by
        intro hemp
        rw [List.isEmpty_iff] at hemp
        rw [hemp] at hp
        exact List.not_mem_nil p hp)]
    dsimp only
    rw [if_neg (by
        intro hemp
        rw [List.isEmpty_iff] at hemp
        rw [hemp] at hpu
        exact List.not_mem_nil p hpu)]
    cases hg : ItemEval.gatherEval q deps
        (docs.filter fun p =>
          dictGet deps.relevance_cache (ItemEval.get_cache_key deps p.1 q) = none) with
    | error e => intro hcon; cases hcon
    | ok v => exact absurd hg (gatherEval_no_ok_of_timeout q _ deps p hpu htime v)

/-- Witness for C2 (amended): the unparsable reply degrades to the apology
verdict, and a two-candidate batch (one unparsable, one relevant) with no
timeouts completes normally. -/
theorem evaluate_relevance_amended_witness :
    ItemEval.parseItemReply cleanDeps "no json here" = (false, apologyMsg) ∧
    ∃ res, ItemEval.evaluate_relevance cleanDeps [(badDoc, 1), (goodDoc, 2)] "q"
      = .ok res :=
  ⟨evaluate_relevance_amended.1 cleanDeps "no json here"
      (fun j hj => Option.noConfusion
        ((show extractJsonSpan "no json here" = none by decide).symm.trans hj)),
   evaluate_relevance_amended.2.1 cleanDeps [(badDoc, 1), (goodDoc, 2)] "q" (by decide)⟩

/-- C1 counterexample: a `get_rag` call whose similarity search returns
zero hits raises `ValueError` (modelled as `Except.error` with the exact
message) instead of returning a minimal empty bundle. -/
theorem get_rag_zero_hits_cex :
    get_rag { tok := trivTok } [] "q" (.str "all") none none none
      = .error ("RAG ERROR: No hits found for query 'q' with filter "
        ++ "\x7b'$and': [\x7b'type': \x7b'$in': ['text', 'image', 'table_row', "
        ++ "'table_caption', 'tendik']\x7d\x7d]\x7d") := rfl

/-- C1 amended: on zero search hits `get_rag` raises a `ValueError`
(`"RAG ERROR: No hits found..."`); the minimal empty bundle — empty
context, empty reference lists, empty metadata and the non-fatal
`"No relevant documents found."` marker — is returned only on the other
empty path, when the relevance evaluation keeps no survivors. -/
theorem get_rag_empty_paths :
    (∀ (deps : Deps) (q : String) (qt : Modalities) (y : Option String)
        (cw : Option Nat) (rq : Option String),
      get_rag deps [] q qt y cw rq
        = .error ("RAG ERROR: No hits found for query '" ++ q ++ "' with filter "
            ++ pyReprFilter (build_filter qt y).1)) ∧
    (∀ (deps : Deps) (sr : List (Document × Score)) (q : String) (qt : Modalities)
        (y : Option String) (cw : Option Nat) (rq : Option String)
        (all_docs : List (Document × Score)) (pcs : List String)
        (cache₁ : List (String × String)),
      sr.isEmpty = false →
      ragCandidates (applyWindow deps cw) sr = .ok all_docs →
      all_docs.isEmpty = false →
      batch_build_content (applyWindow deps cw) (all_docs.map (·.1)) false
        = .ok (pcs, cache₁) →
      filter_docs_by_ids ((all_docs.map (·.1)).zip pcs)
        (BatchEval.batch_relevance_check
          { applyWindow deps cw with csv_cache := cache₁ }
          ((all_docs.map (·.1)).zip pcs)
          (if truthy rq then orEmpty rq else q)) = [] →
      get_rag deps sr q qt y cw rq
        = .ok { context := "", image_paths := [], csv_paths := [], metadatas := [],
                csv_content := [], query_type_used := qt,
                filter_message := "No relevant documents found. Filter: "
                  ++ pyReprFilter (build_filter qt y).1 }) := by
  constructor
  · intro deps q qt y cw rq
    rfl
  · intro deps sr q qt y cw rq all_docs pcs cache₁ hsr hcand hall hbuild hfilter
    unfold get_rag
    dsimp only
    rw [if_neg (by rw [hsr]; exact Bool.false_ne_true)]
    rw [hcand]
    dsimp only
    rw [if_neg (by rw [hall]; exact Bool.false_ne_true)]
    rw [hbuild]
    dsimp only
    rw [hfilter]
    rfl

/-- Witness for C1 (amended): one image hit whose batched verdict parses to
an empty kept-ordinal list yields the minimal empty bundle. -/
theorem get_rag_empty_paths_witness :
    get_rag emptyVerdictDeps [(imageHit, 3)] "q" (.str "all") none none none
      = .ok { context := "", image_paths := [], csv_paths := [], metadatas := [],
              csv_content := [], query_type_used := .str "all",
              filter_message := "No relevant documents found. Filter: "
                ++ "\x7b'$and': [\x7b'type': \x7b'$in': ['text', 'image', 'table_row', "
                ++ "'table_caption', 'tendik']\x7d\x7d]\x7d" } := by
  have h := get_rag_empty_paths.2 emptyVerdictDeps [(imageHit, 3)] "q" (.str "all")
    none none none [(imageHitScored, 3)] ["Konten Mengandung gambar , a chart"] []
    rfl rfl rfl rfl rfl
  exact h.trans (by rfl)

end DTMI
